import Mathlib

/-!
Verification of the resource-resolution and rewriting pipeline of
`url_to_standalone.py` (URL to Standalone HTML Converter).

The development shallowly embeds the pipeline: documents are lists of
characters, fetched payloads are lists of bytes (`List Nat`), and the
external collaborators (HTTP client, `urllib.parse.urljoin`, the md5 hex
digest, the filesystem, the clock) are supplied through an explicit
environment record.  Every regex-driven pass of the source is embedded as
an executable scanner over character lists together with a generic
`re.sub`-style driver, so that concrete runs can be evaluated inside the
kernel.  Fetch calls and file writes are recorded in an explicit state so
that theorems can talk about which external effects a run performs.
-/

namespace U2S

set_option maxRecDepth 8000

/-- Character-list view of a string literal; documents, URLs and byte
strings of the Python source are modelled as `List Char`. -/
def strOf (s : String) : List Char := s.data

/-- ASCII lower-casing of one character.  Models Python `str.lower()`;
every pattern literal and every input considered here is ASCII. -/
def lc (c : Char) : Char :=
  if 65 ≤ c.toNat ∧ c.toNat ≤ 90 then Char.ofNat (c.toNat + 32) else c

/-- Models `s.lower()`. -/
def lowerStr (s : List Char) : List Char := s.map lc

/-- Python whitespace class (`\s`, and the default `str.strip`/`str.split`
separators) restricted to ASCII. -/
def isWS (c : Char) : Bool :=
  c == ' ' || c == '\t' || c == '\n' || c == '\r' || c == '\x0b' || c == '\x0c'

/-- Does `p` occur at the head of `s` (case-sensitively)? -/
def startsWithCS : List Char → List Char → Bool
  | [], _ => true
  | _ :: _, [] => false
  | p :: ps, c :: cs => p == c && startsWithCS ps cs

/-- Does `p` occur at the head of `s`, ignoring ASCII case? -/
def startsWithCI : List Char → List Char → Bool
  | [], _ => true
  | _ :: _, [] => false
  | p :: ps, c :: cs => lc p == lc c && startsWithCI ps cs

/-- Helper for `findIdxBy`, carrying the current index. -/
def findIdxByAux (f : List Char → Bool) : List Char → Nat → Option Nat
  | [], _ => none
  | c :: cs, i => if f (c :: cs) then some i else findIdxByAux f cs (i + 1)

/-- Index of the first suffix of `s` satisfying `f`, if any. -/
def findIdxBy (f : List Char → Bool) (s : List Char) : Option Nat :=
  findIdxByAux f s 0

/-- Helper for `occsBy`, carrying the current index. -/
def occsByAux (f : List Char → Bool) : List Char → Nat → List Nat
  | [], _ => []
  | c :: cs, i =>
    if f (c :: cs) then i :: occsByAux f cs (i + 1) else occsByAux f cs (i + 1)

/-- All indices of suffixes of `s` satisfying `f`, in increasing order. -/
def occsBy (f : List Char → Bool) (s : List Char) : List Nat :=
  occsByAux f s 0

/-- Case-sensitive substring test (`pat in s`). -/
def containsSub (pat s : List Char) : Bool :=
  (findIdxBy (startsWithCS pat) s).isSome

/-- Case-insensitive substring test (`pat in s.lower()` for a lowercase
ASCII pattern). -/
def containsCI (pat s : List Char) : Bool :=
  (findIdxBy (startsWithCI pat) s).isSome

/-- Case-sensitive suffix test (`s.endswith(pat)`). -/
def endsWithCS (pat s : List Char) : Bool :=
  startsWithCS pat.reverse s.reverse

/-- Case-insensitive string equality. -/
def eqCI (a b : List Char) : Bool := lowerStr a == lowerStr b

/-- Models `s.strip()` (both ends, Python whitespace). -/
def stripStr (s : List Char) : List Char :=
  ((s.dropWhile (fun c => isWS c)).reverse.dropWhile (fun c => isWS c)).reverse

/-- Helper for `splitWS`. -/
def splitWSAux : List Char → List Char → List (List Char)
  | [], acc => if acc.isEmpty then [] else [acc.reverse]
  | c :: cs, acc =>
    if isWS c then
      if acc.isEmpty then splitWSAux cs [] else acc.reverse :: splitWSAux cs []
    else splitWSAux cs (c :: acc)

/-- Models `s.split()` (split on whitespace runs, dropping empties). -/
def splitWS (s : List Char) : List (List Char) := splitWSAux s []

/-- Helper for `splitOnChar`. -/
def splitOnCharAux (sep : Char) : List Char → List Char → List (List Char)
  | [], acc => [acc.reverse]
  | c :: cs, acc =>
    if c == sep then acc.reverse :: splitOnCharAux sep cs []
    else splitOnCharAux sep cs (c :: acc)

/-- Models `s.split(sep)` for a one-character separator (keeps empties). -/
def splitOnChar (sep : Char) (s : List Char) : List (List Char) :=
  splitOnCharAux sep s []

/-- Is `c` a quote character (`"` or `'`)? -/
def quoteChar (c : Char) : Bool := c == '"' || c == '\''

/-- ASCII word character (`\w` restricted to ASCII, as used by the
handler-stripping pattern on the inputs considered here). -/
def isWordChar (c : Char) : Bool :=
  ('a' ≤ c && c ≤ 'z') || ('A' ≤ c && c ≤ 'Z') || ('0' ≤ c && c ≤ '9') || c == '_'

/-! ## MIME resolver (`get_mime_type`, source lines 105-134) -/

/-- Embedding of `get_mime_type`: a fixed sequence of rows, each row
triggered by a substring match on the lowered content type or an
extension test on the lowered URL (`endswith` for all extensions except
`.jpg`/`.jpeg`, which use substring tests); falls back to the content
type verbatim, or to `application/octet-stream` when that is empty. -/
def get_mime_type (url content_type : List Char) : List Char :=
  let u := lowerStr url
  let c := lowerStr content_type
  if containsSub (strOf "css") c || endsWithCS (strOf ".css") u then strOf "text/css"
  else if containsSub (strOf "javascript") c || endsWithCS (strOf ".js") u then
    strOf "application/javascript"
  else if containsSub (strOf "png") c || endsWithCS (strOf ".png") u then strOf "image/png"
  else if containsSub (strOf "jpeg") c || containsSub (strOf ".jpg") u
      || containsSub (strOf ".jpeg") u then strOf "image/jpeg"
  else if containsSub (strOf "gif") c || endsWithCS (strOf ".gif") u then strOf "image/gif"
  else if containsSub (strOf "svg") c || endsWithCS (strOf ".svg") u then strOf "image/svg+xml"
  else if containsSub (strOf "webp") c || endsWithCS (strOf ".webp") u then strOf "image/webp"
  else if containsSub (strOf "ico") c || endsWithCS (strOf ".ico") u then strOf "image/x-icon"
  else if containsSub (strOf "woff2") c || endsWithCS (strOf ".woff2") u then strOf "font/woff2"
  else if containsSub (strOf "woff") c || endsWithCS (strOf ".woff") u then strOf "font/woff"
  else if containsSub (strOf "ttf") c || endsWithCS (strOf ".ttf") u then strOf "font/ttf"
  else if containsSub (strOf "eot") c || endsWithCS (strOf ".eot") u then
    strOf "application/vnd.ms-fontobject"
  else if content_type = [] then strOf "application/octet-stream" else content_type

/-- Disjunction of all twelve row conditions of `get_mime_type`; true iff
some row of the table fires for the given url / content-type pair. -/
def mimeTableMatches (url content_type : List Char) : Bool :=
  let u := lowerStr url
  let c := lowerStr content_type
  containsSub (strOf "css") c || endsWithCS (strOf ".css") u
  || containsSub (strOf "javascript") c || endsWithCS (strOf ".js") u
  || containsSub (strOf "png") c || endsWithCS (strOf ".png") u
  || containsSub (strOf "jpeg") c || containsSub (strOf ".jpg") u
  || containsSub (strOf ".jpeg") u
  || containsSub (strOf "gif") c || endsWithCS (strOf ".gif") u
  || containsSub (strOf "svg") c || endsWithCS (strOf ".svg") u
  || containsSub (strOf "webp") c || endsWithCS (strOf ".webp") u
  || containsSub (strOf "ico") c || endsWithCS (strOf ".ico") u
  || containsSub (strOf "woff2") c || endsWithCS (strOf ".woff2") u
  || containsSub (strOf "woff") c || endsWithCS (strOf ".woff") u
  || containsSub (strOf "ttf") c || endsWithCS (strOf ".ttf") u
  || containsSub (strOf "eot") c || endsWithCS (strOf ".eot") u

/-! ## Base64 (`base64.b64encode(...).decode('utf-8')`) -/

/-- The standard base64 alphabet. -/
def b64alphabet : List Char :=
  strOf "ABCDEFGHIJKLMNOPQRSTUVWXYZabcdefghijklmnopqrstuvwxyz0123456789+/"

/-- The base64 digit for a 6-bit value. -/
def b64digit (n : Nat) : Char := (b64alphabet.drop n).headD 'A'

/-- Standard base64 encoding of a byte string. -/
def b64encode : List Nat → List Char
  | [] => []
  | [a] =>
    [b64digit (a % 256 / 4), b64digit (a % 4 * 16), '=', '=']
  | [a, b] =>
    [b64digit (a % 256 / 4), b64digit (a % 4 * 16 + b % 256 / 16),
     b64digit (b % 16 * 4), '=']
  | a :: b :: c :: rest =>
    b64digit (a % 256 / 4) :: b64digit (a % 4 * 16 + b % 256 / 16) ::
    b64digit (b % 16 * 4 + c % 256 / 64) :: b64digit (c % 64) :: b64encode rest

/-! ## Environment, state and external collaborators -/

/-- The three asset-handling modes of `create_standalone_html`
(`assets_mode` is one of the strings `'embed'`, `'download'`,
`'hotlink'`; the source only ever compares it against these three). -/
inductive AssetsMode
  | embed
  | download
  | hotlink
deriving DecidableEq

/-- External collaborators of the pipeline, supplied as an explicit
environment: the HTTP client behind `fetch_resource` (returning the
payload bytes and the content-type header on success, or no payload and
the exception text on failure, exactly the shape of `fetch_resource`'s
result tuple), `urllib.parse.urljoin`, the md5 hex digest used by
`save_asset_to_file`, the filesystem write (which may raise, modelled by
`Except`), and the two formatted clock readings used by the watermark and
the metadata comment. -/
structure Env where
  fetch : List Char → Option (List Nat) × List Char
  urljoin : List Char → List Char → List Char
  md5hex : List Char → List Char
  saveFile : List Char → List Nat → Except (List Char) Unit
  nowMeta : List Char
  nowWm : List Char

/-- The `stats` dictionary of `create_standalone_html`. -/
structure Stats where
  stylesheets_inlined : Nat := 0
  images_inlined : Nat := 0
  fonts_inlined : Nat := 0
  assets_downloaded : Nat := 0
  resources_failed : Nat := 0
  total_size_before : Nat := 0
  total_size_after : Nat := 0
  source_url : List Char := []
deriving DecidableEq

/-- Mutable state threaded through the pipeline: the stats dictionary and
the error list of the source, plus instrumentation of the external
effects (every URL passed to `fetch_resource`, in call order, and every
file written by the asset store together with its bytes). -/
structure St where
  stats : Stats := {}
  errors : List (List Char) := []
  fetchLog : List (List Char) := []
  files : List (List Char × List Nat) := []
deriving DecidableEq

/-- State after appending some fetched URLs to the fetch log. -/
def addLog (st : St) (urls : List (List Char)) : St :=
  { st with fetchLog := st.fetchLog ++ urls }

/-- Embedding of `fetch_resource` (source lines 91-102): a single
retrieval attempt through the environment's HTTP client; any exception
(including a non-2xx status via `raise_for_status`) yields no payload and
the exception text.  The call is recorded in the fetch log. -/
def fetch_resource (env : Env) (url : List Char) (st : St) :
    (Option (List Nat) × List Char) × St :=
  (env.fetch url, addLog st [url])

/-- Python truthiness of the `content` component of a fetch result:
`None` and the empty byte string are both falsy. -/
def contentTruthy : Option (List Nat) → Bool
  | some c => !c.isEmpty
  | none => false

/-- Truthiness of the `assets_folder` argument (`None` and the empty
string are falsy); returns the folder name when truthy. -/
def folderOk : Option (List Char) → Option (List Char)
  | none => none
  | some f => if f.isEmpty then none else some f

/-- Models `urlparse(url).path` for the URL shapes handled here: the part
after the scheme-and-host prefix (when a `://` is present) up to the
query or fragment; for scheme-less references the reference itself up to
the query or fragment. -/
def urlPathOf (url : List Char) : List Char :=
  match findIdxBy (startsWithCS (strOf "://")) url with
  | some i =>
    let rest := url.drop (i + 3)
    let afterHost := rest.dropWhile (fun c => !(c == '/' || c == '?' || c == '#'))
    afterHost.takeWhile (fun c => !(c == '?' || c == '#'))
  | none => url.takeWhile (fun c => !(c == '?' || c == '#'))

/-- Models `urlparse(url).netloc` for the URL shapes handled here: the
host part between `://` and the next `/`, `?` or `#`. -/
def netlocOf (url : List Char) : List Char :=
  match findIdxBy (startsWithCS (strOf "://")) url with
  | some i => (url.drop (i + 3)).takeWhile (fun c => !(c == '/' || c == '?' || c == '#'))
  | none => []

/-- The extension computed by `save_asset_to_file` (source lines
175-181): the final path segment's part after the last dot, cut at a
`?` and truncated to 10 characters, prefixed with a dot; empty when the
segment has no dot.  An empty final segment is replaced by `asset`. -/
def asset_ext (url : List Char) : List Char :=
  let path_parts := splitOnChar '/' (urlPathOf url)
  let lastPart := path_parts.getLastD []
  let original_name := if lastPart.isEmpty then strOf "asset" else lastPart
  if containsSub (strOf ".") original_name then
    '.' :: ((splitOnChar '?' ((splitOnChar '.' original_name).getLastD [])).headD []).take 10
  else []

/-- The filename computed by `save_asset_to_file` (source line 182): the
first 12 hex characters of the md5 digest of the URL, followed by the
bounded extension.  The content bytes are not an input. -/
def asset_filename (env : Env) (url : List Char) : List Char :=
  (env.md5hex url).take 12 ++ asset_ext url

/-- Embedding of `save_asset_to_file` (source lines 170-190): computes
the URL-derived filename, writes the bytes under
`<folder>/<asset_type>/<filename>` (the write may raise), records the
write, and returns the relative path substituted into the document. -/
def save_asset_to_file (env : Env) (content : List Nat) (url assets_folder asset_type : List Char)
    (st : St) : Except (List Char) (List Char × St) :=
  let filename := asset_filename env url
  let filepath := assets_folder ++ '/' :: asset_type ++ '/' :: filename
  match env.saveFile filepath content with
  | .error e => .error e
  | .ok _ => .ok (filepath, { st with files := st.files ++ [(filepath, content)] })

/-! ## Generic `re.sub` drivers

Each regex of the source is embedded as a finder returning the start
index, the length, and the capture groups of the leftmost match.  The
drivers mirror `re.sub`: replace the leftmost match, then continue after
it.  `reSubS` threads the shared state through a total callback (the
Python callbacks that never raise); `reSubE` threads it through a
fallible callback — a callback exception propagates, aborting the whole
substitution, exactly as an uncaught exception inside a Python `re.sub`
callback does. -/

/-- Turn a head-matcher (match length and groups at the head of the
suffix, if any) into a leftmost-match finder. -/
def findMatchByAux {G : Type} (tryAt : List Char → Option (Nat × G)) :
    List Char → Nat → Option (Nat × Nat × G)
  | [], _ => none
  | c :: cs, i =>
    match tryAt (c :: cs) with
    | some (n, g) => some (i, n, g)
    | none => findMatchByAux tryAt cs (i + 1)

def findMatchBy {G : Type} (tryAt : List Char → Option (Nat × G))
    (s : List Char) : Option (Nat × Nat × G) :=
  findMatchByAux tryAt s 0

/-- Pure `re.sub` with a stateless callback. -/
def reSubP {G : Type} (find : List Char → Option (Nat × Nat × G))
    (cb : List Char → G → List Char) : Nat → List Char → List Char
  | 0, doc => doc
  | Nat.succ fuel, doc =>
    match find doc with
    | none => doc
    | some (i, n, g) =>
      let whole := (doc.drop i).take n
      doc.take i ++ (cb whole g ++ reSubP find cb fuel (doc.drop (i + n)))

/-- `re.sub` with a total state-threading callback. -/
def reSubS {G : Type} (find : List Char → Option (Nat × Nat × G))
    (cb : List Char → G → St → List Char × St) : Nat → List Char → St → List Char × St
  | 0, doc, st => (doc, st)
  | Nat.succ fuel, doc, st =>
    match find doc with
    | none => (doc, st)
    | some (i, n, g) =>
      let whole := (doc.drop i).take n
      let (rep, st1) := cb whole g st
      let (rest, st2) := reSubS find cb fuel (doc.drop (i + n)) st1
      (doc.take i ++ (rep ++ rest), st2)

/-- `re.sub` with a fallible state-threading callback; a callback error
aborts the whole substitution (and with it the whole conversion). -/
def reSubE {G : Type} (find : List Char → Option (Nat × Nat × G))
    (cb : List Char → G → St → Except (List Char) (List Char × St)) :
    Nat → List Char → St → Except (List Char) (List Char × St)
  | 0, doc, st => .ok (doc, st)
  | Nat.succ fuel, doc, st =>
    match find doc with
    | none => .ok (doc, st)
    | some (i, n, g) =>
      let whole := (doc.drop i).take n
      match cb whole g st with
      | .error e => .error e
      | .ok (rep, st1) =>
        match reSubE find cb fuel (doc.drop (i + n)) st1 with
        | .error e => .error e
        | .ok (rest, st2) => .ok (doc.take i ++ (rep ++ rest), st2)

/-! ## Pattern matchers

One specialised scanner per regex of the source.  Each scanner documents
the pattern it embeds; greedy/lazy quantifier behaviour is reproduced for
the quoting discipline actually produced by the pipeline (attribute
values containing no stray quote characters). -/

/-- Parse `["'][^"']*["']` at the head: an either-quote delimited value
(possibly empty).  Returns consumed length and the value. -/
def parseQuotedAny (s : List Char) : Option (Nat × List Char) :=
  match s with
  | q :: rest =>
    if quoteChar q then
      let v := rest.takeWhile (fun c => !quoteChar c)
      match rest.drop v.length with
      | q2 :: _ => if quoteChar q2 then some (1 + v.length + 1, v) else none
      | [] => none
    else none
  | [] => none

/-- Parse `["']([^"']+)["']` at the head: like `parseQuotedAny` but with
a non-empty value. -/
def parseQuotedOne (s : List Char) : Option (Nat × List Char) :=
  match parseQuotedAny s with
  | some (n, v) => if v.isEmpty then none else some (n, v)
  | none => none

/-- Parse `NAME=["']([^"']+)["']` at the head (name case-insensitive). -/
def tryAttrEq (name s : List Char) : Option (Nat × List Char) :=
  if startsWithCI (name ++ ['=']) s then
    (parseQuotedOne (s.drop (name.length + 1))).map (fun r => (name.length + 1 + r.1, r.2))
  else none

/-- Parse `\s+` at the head: length of a non-empty whitespace run. -/
def parseWS1 (s : List Char) : Option Nat :=
  let w := (s.takeWhile (fun c => isWS c)).length
  if w = 0 then none else some w

/-- Capture groups of the `<img ... src=...>` and `<source ... srcset=...>`
patterns: `(<TAG[^>]+ATTR=)(["'])([^"']+)(\2[^>]*>)`. -/
structure TagAttrG where
  g1 : List Char
  quote : Char
  val : List Char
  g4 : List Char
deriving DecidableEq

/-- Head-matcher for `(<TAG[^>]+ATTR=)(["'])([^"']+)(\2[^>]*>)` (with
`re.IGNORECASE`; the `<img src>` pattern of source line 312 and the
`<source srcset>` pattern of line 427).  The greedy `[^>]+` makes the
regex engine prefer the last `ATTR=` occurrence inside the tag that
completes a match, which the scanner reproduces. -/
def tryTagAttrAt (tag attr : List Char) (s : List Char) : Option (Nat × TagAttrG) :=
  if startsWithCI tag s then
    let tlen := tag.length
    let rest := s.drop tlen
    let region := rest.takeWhile (fun c => c != '>')
    if region.length = rest.length then none
    else
      let alen := attr.length + 1
      let cands := (occsBy (startsWithCI (attr ++ ['='])) region).filter (fun p => 1 ≤ p)
      cands.reverse.findSome? (fun p =>
        let after := s.drop (tlen + p + alen)
        match after with
        | [] => none
        | q :: rest2 =>
          if quoteChar q then
            let v := rest2.takeWhile (fun c => !quoteChar c)
            if v.isEmpty then none
            else
              match rest2.drop v.length with
              | [] => none
              | q2 :: rest4 =>
                if q2 == q then
                  let sfx := rest4.takeWhile (fun c => c != '>')
                  if sfx.length = rest4.length then none
                  else
                    some (tlen + p + alen + 1 + v.length + 1 + sfx.length + 1,
                      { g1 := s.take (tlen + p + alen), quote := q, val := v,
                        g4 := q :: (sfx ++ ['>']) })
                else none
          else none)
  else none

/-- Head-matcher for `srcset=["']([^"']+)["']` (source line 347, with
`re.IGNORECASE`; the closing quote is unconstrained in the pattern). -/
def trySrcsetAt (s : List Char) : Option (Nat × List Char) :=
  if startsWithCI (strOf "srcset=") s then
    match s.drop 7 with
    | [] => none
    | q :: rest =>
      if quoteChar q then
        let v := rest.takeWhile (fun c => !quoteChar c)
        if v.isEmpty then none
        else
          match rest.drop v.length with
          | q2 :: _ => if quoteChar q2 then some (7 + 1 + v.length + 1, v) else none
          | [] => none
      else none
  else none

/-- Capture groups of the inline-style background pattern:
`(style=["'][^"']*url\(["']?)([^"')\s]+)(["']?\)[^"']*["'])`. -/
structure StyleG where
  g1 : List Char
  url : List Char
  g3 : List Char
deriving DecidableEq

/-- Head-matcher for the inline-style background pattern of source line
395 (with `re.IGNORECASE`).  The greedy `[^"']*` prefers the last
`url(` inside the attribute value that completes a match. -/
def tryStyleAt (s : List Char) : Option (Nat × StyleG) :=
  if startsWithCI (strOf "style=") s then
    match s.drop 6 with
    | [] => none
    | q :: rest =>
      if quoteChar q then
        let region := rest.takeWhile (fun c => !quoteChar c)
        let cands := (occsBy (startsWithCI (strOf "url(")) region).reverse
        cands.findSome? (fun p =>
          let after := rest.drop (p + 4)
          let oq := match after with
            | c :: _ => if quoteChar c then 1 else 0
            | [] => 0
          let after2 := after.drop oq
          let tok := after2.takeWhile (fun c => !(quoteChar c || c == ')' || isWS c))
          if tok.isEmpty then none
          else
            let after3 := after2.drop tok.length
            let cq := match after3 with
              | c :: _ => if quoteChar c then 1 else 0
              | [] => 0
            match after3.drop cq with
            | ')' :: after5 =>
              let tail := after5.takeWhile (fun c => !quoteChar c)
              match after5.drop tail.length with
              | _ :: _ =>
                some (6 + 1 + p + 4 + oq + tok.length + cq + 1 + tail.length + 1,
                  { g1 := s.take (6 + 1 + p + 4 + oq), url := tok,
                    g3 := (s.drop (6 + 1 + p + 4 + oq + tok.length)).take
                      (cq + 1 + tail.length + 1) })
              | [] => none
            | _ => none)
      else none
  else none

/-- Token characters of the CSS `url(...)` pattern: `[^"'()\s\\]`. -/
def cssTokChar (c : Char) : Bool :=
  !(quoteChar c || c == '(' || c == ')' || isWS c || c == '\\')

/-- Continuation of the CSS url token: `(?:\\.[^"'()\s\\]*)*` (a `\`
escape followed by any non-newline character, then more plain token
characters).  Fuel-driven; each step consumes at least two characters. -/
def cssTokCont : Nat → List Char → Nat × List Char → Nat × List Char
  | Nat.succ fuel, '\\' :: c :: rest, (accLen, acc) =>
    if c == '\n' then (accLen, acc)
    else
      let seg := rest.takeWhile cssTokChar
      cssTokCont fuel (rest.drop seg.length) (accLen + 2 + seg.length, acc ++ '\\' :: c :: seg)
  | _, _, r => r

/-- Head-matcher for the CSS url pattern of source line 140:
`url\(\s*["']?([^"'()\s\\]+(?:\\.[^"'()\s\\]*)*)["']?\s*\)` — note this
one is compiled without `re.IGNORECASE`. -/
def tryCssUrlAt (s : List Char) : Option (Nat × List Char) :=
  if startsWithCS (strOf "url(") s then
    let rest := s.drop 4
    let ws1 := (rest.takeWhile (fun c => isWS c)).length
    let r2 := rest.drop ws1
    let oq := match r2 with
      | c :: _ => if quoteChar c then 1 else 0
      | [] => 0
    let r3 := r2.drop oq
    let seg := r3.takeWhile cssTokChar
    if seg.isEmpty then none
    else
      let (tlen, tok) := cssTokCont r3.length (r3.drop seg.length) (seg.length, seg)
      let r4 := r3.drop tlen
      let cq := match r4 with
        | c :: _ => if quoteChar c then 1 else 0
        | [] => 0
      let r5 := r4.drop cq
      let ws2 := (r5.takeWhile (fun c => isWS c)).length
      match r5.drop ws2 with
      | ')' :: _ => some (4 + ws1 + oq + tlen + cq + ws2 + 1, tok)
      | _ => none
  else none

/-- Head-matcher for the script-stripping pattern of source line 223:
`<script\b[^<]*(?:(?!<\/script>)<[^<]*)*<\/script>` (with
`re.IGNORECASE | re.DOTALL`), which matches from `<script` (at a word
boundary) through the first following `</script>`. -/
def tryScriptAt (s : List Char) : Option (Nat × Unit) :=
  if startsWithCI (strOf "<script") s then
    let rest := s.drop 7
    let boundaryBad := match rest with
      | c :: _ => isWordChar c
      | [] => true
    if boundaryBad then none
    else
      match findIdxBy (startsWithCI (strOf "</script>")) rest with
      | some k => some (7 + k + 9, ())
      | none => none
  else none

/-- Head-matcher for the event-handler stripping patterns of source lines
224-225: `\s+on\w+=Q[^Q]*Q` for a fixed quote character `Q` (with
`re.IGNORECASE`). -/
def tryHandlerAt (qc : Char) (s : List Char) : Option (Nat × Unit) :=
  match parseWS1 s with
  | none => none
  | some w =>
    let r := s.drop w
    if startsWithCI (strOf "on") r then
      let wlen := ((r.drop 2).takeWhile isWordChar).length
      if wlen = 0 then none
      else
        match r.drop (2 + wlen) with
        | '=' :: q :: rest2 =>
          if q == qc then
            let v := rest2.takeWhile (fun c => c != qc)
            match rest2.drop v.length with
            | q2 :: _ =>
              if q2 == qc then some (w + 2 + wlen + 1 + 1 + v.length + 1, ()) else none
            | [] => none
          else none
        | _ => none
    else none

/-- Capture groups of the lazy-attribute promotion pattern. -/
structure LazyG where
  g1 : List Char
  val : List Char
  g3 : List Char
deriving DecidableEq

/-- Parse the tail of the lazy-attribute pattern after group 1:
`(?:\s+src=["'][^"']*["'])?\s+ATTR=["']([^"']+)["']`, preferring the
variant that consumes an adjacent `src` attribute (the regex tries the
optional group first).  Returns consumed length and the captured value. -/
def tryLazyTail (attr s : List Char) : Option (Nat × List Char) :=
  let noSrc :=
    match parseWS1 s with
    | none => none
    | some w =>
      match tryAttrEq attr (s.drop w) with
      | some (n, v) => some (w + n, v)
      | none => none
  match parseWS1 s with
  | none => none
  | some w =>
    if startsWithCI (strOf "src=") (s.drop w) then
      match parseQuotedAny (s.drop (w + 4)) with
      | some (n0, _) =>
        let consumed := w + 4 + n0
        match parseWS1 (s.drop consumed) with
        | some w2 =>
          match tryAttrEq attr (s.drop (consumed + w2)) with
          | some (n, v) => some (consumed + w2 + n, v)
          | none => noSrc
        | none => noSrc
      | none => noSrc
    else noSrc

/-- Head-matcher for the lazy-attribute promotion pattern of source lines
231-236:
`(<img[^>]*?)(?:\s+src=["'][^"']*["'])?\s+ATTR=["']([^"']+)["']([^>]*>)`
(with `re.IGNORECASE`).  The lazy `[^>]*?` makes group 1 as short as
possible. -/
def tryLazyAt (attr : List Char) (s : List Char) : Option (Nat × LazyG) :=
  if startsWithCI (strOf "<img") s then
    let rest := s.drop 4
    let region := rest.takeWhile (fun c => c != '>')
    (List.range (region.length + 1)).findSome? (fun j =>
      match tryLazyTail attr (rest.drop j) with
      | some (consumed, v) =>
        let after := rest.drop (j + consumed)
        let g3r := after.takeWhile (fun c => c != '>')
        match after.drop g3r.length with
        | '>' :: _ =>
          some (4 + j + consumed + g3r.length + 1,
            { g1 := s.take (4 + j), val := v, g3 := g3r ++ ['>'] })
        | _ => none
      | none => none)
  else none

/-- Head-matcher for the `data-srcset` promotion pattern of source lines
239-244: `(<(?:img|source)[^>]*?)\s+data-srcset=["']([^"']+)["']` (with
`re.IGNORECASE`). -/
def tryDataSrcsetAt (s : List Char) : Option (Nat × (List Char × List Char)) :=
  let tl : Option Nat :=
    if startsWithCI (strOf "<img") s then some 4
    else if startsWithCI (strOf "<source") s then some 7
    else none
  match tl with
  | none => none
  | some t =>
    let rest := s.drop t
    let region := rest.takeWhile (fun c => c != '>')
    (List.range (region.length + 1)).findSome? (fun j =>
      match parseWS1 (rest.drop j) with
      | none => none
      | some w =>
        match tryAttrEq (strOf "data-srcset") (rest.drop (j + w)) with
        | some (n, v) => some (t + j + w + n, (s.take (t + j), v))
        | none => none)

/-- Head-matcher for the `loading="lazy"` removal pattern of source line
247: `\s+loading=["']lazy["']` (with `re.IGNORECASE`). -/
def tryLoadingLazyAt (s : List Char) : Option (Nat × Unit) :=
  match parseWS1 s with
  | none => none
  | some w =>
    if startsWithCI (strOf "loading=") (s.drop w) then
      match s.drop (w + 8) with
      | q :: rest =>
        if quoteChar q && startsWithCI (strOf "lazy") rest then
          match rest.drop 4 with
          | q2 :: _ => if quoteChar q2 then some (w + 8 + 1 + 4 + 1, ()) else none
          | [] => none
        else none
      | [] => none
    else none

/-- At a `<link` tag: the tag's length (through the closing `>`) and the
values of its `rel` and `href` attributes, if present.  Attribute values
follow the `NAME=["']([^"']+)["']` shape of the stylesheet patterns of
source lines 251-255; the `[^>]+` before the attribute requires at least
one character after `<link`. -/
def parseLinkTag (s : List Char) : Option (Nat × Option (List Char) × Option (List Char)) :=
  if startsWithCI (strOf "<link") s then
    let rest := s.drop 5
    let region := rest.takeWhile (fun c => c != '>')
    if region.length = rest.length then none
    else
      let attrValIn : List Char → Option (List Char) := fun name =>
        (occsBy (startsWithCI (name ++ ['='])) region).findSome? (fun p =>
          if 1 ≤ p then (parseQuotedOne (region.drop (p + name.length + 1))).map (·.2)
          else none)
      some (5 + region.length + 1, attrValIn (strOf "rel"), attrValIn (strOf "href"))
  else none

/-! ## Substitution callbacks and passes -/

/-- Join with `", "` (Python `", ".join(parts)`). -/
def joinCommaSpace : List (List Char) → List Char
  | [] => []
  | [x] => x
  | x :: xs => x ++ strOf ", " ++ joinCommaSpace xs

/-- Latin-1 view of payload bytes, modelling the CSS text decoding of
source lines 276-286 (utf-8 first, then latin-1 — which never fails —
so the text is always produced; the two agree on the ASCII payloads
considered here). -/
def decodeBytes (bs : List Nat) : List Char := bs.map Char.ofNat

/-- Embedding of the `replace_url` callback of `inline_css_resources`
(source lines 142-161): skip inline data references, strip CSS
backslash escapes, resolve against the stylesheet's URL, fetch, and
substitute an inline-encoded `url("data:...")` on success; on fetch
failure return the original match.  The Python body is wrapped in a
`try`/`except` returning the original match; every operation of the body
is total in this model, so the callback is total. -/
def replace_url (env : Env) (base : List Char) (whole url : List Char) (st : St) :
    List Char × St :=
  if url.isEmpty || startsWithCS (strOf "data:") url then (whole, st)
  else
    let clean_url := url.filter (fun c => c != '\\')
    let absolute_url := env.urljoin base clean_url
    let ((content, content_type), st) := fetch_resource env absolute_url st
    if contentTruthy content then
      let mime := get_mime_type clean_url content_type
      (strOf "url(\"data:" ++ mime ++ strOf ";base64," ++ b64encode (content.getD [])
        ++ strOf "\")", st)
    else (whole, st)

/-- Embedding of `inline_css_resources` (source lines 137-167). -/
def inline_css_resources (env : Env) (base css : List Char) (st : St) : List Char × St :=
  reSubS (findMatchBy tryCssUrlAt) (replace_url env base) (css.length + 1) css st

/-- Embedding of the `replace_image` callback (source lines 314-340):
skip inline data references; otherwise fetch the resolved URL and
substitute per mode; a falsy payload counts a failure and appends an
error record; a successful fetch that matches no mode branch returns the
original match.  The callback has no exception handler, so an asset-store
error propagates. -/
def replace_image (env : Env) (mode : AssetsMode) (folder : Option (List Char))
    (base : List Char) (whole : List Char) (g : TagAttrG) (st : St) :
    Except (List Char) (List Char × St) :=
  if startsWithCS (strOf "data:") g.val then .ok (whole, st)
  else
    let absolute_url := env.urljoin base g.val
    let ((content, content_type), st) := fetch_resource env absolute_url st
    if contentTruthy content then
      if mode = .embed then
        let mime := get_mime_type g.val content_type
        let data_url := strOf "data:" ++ mime ++ strOf ";base64," ++ b64encode (content.getD [])
        .ok (g.g1 ++ g.quote :: (data_url ++ g.g4),
          { st with stats := { st.stats with images_inlined := st.stats.images_inlined + 1 } })
      else
        match mode, folderOk folder with
        | .download, some f =>
          match save_asset_to_file env (content.getD []) absolute_url f (strOf "images") st with
          | .error e => .error e
          | .ok (local_path, st) =>
            .ok (g.g1 ++ g.quote :: (local_path ++ g.g4),
              { st with stats :=
                { st.stats with assets_downloaded := st.stats.assets_downloaded + 1 } })
        | _, _ => .ok (whole, st)
    else
      .ok (whole,
        { st with
          stats := { st.stats with resources_failed := st.stats.resources_failed + 1 },
          errors := st.errors ++ [strOf "Bild nicht geladen: " ++ g.val] })

/-- Embedding of one loop iteration of the `replace_srcset` callback
(source lines 353-384): strip the candidate, split it into URL and
optional descriptor, then either keep it (inline data reference or fetch
failure), append the rewritten candidate (embed / download), or — when
the fetch succeeds but no mode branch applies — append nothing, dropping
the candidate.  Returns `none` when nothing is appended. -/
def process_srcset_part (env : Env) (mode : AssetsMode) (folder : Option (List Char))
    (base : List Char) (part0 : List Char) (st : St) :
    Except (List Char) (Option (List Char) × St) :=
  let part := stripStr part0
  if part.isEmpty then .ok (none, st)
  else
    match splitWS part with
    | [] => .ok (none, st)
    | src :: restPieces =>
      let descriptor := restPieces.headD []
      if startsWithCS (strOf "data:") src then .ok (some part, st)
      else
        let absolute_url := env.urljoin base src
        let ((content, content_type), st) := fetch_resource env absolute_url st
        if contentTruthy content then
          if mode = .embed then
            let mime := get_mime_type src content_type
            let data_url := strOf "data:" ++ mime ++ strOf ";base64,"
              ++ b64encode (content.getD [])
            .ok (some (stripStr (data_url ++ ' ' :: descriptor)),
              { st with stats :=
                { st.stats with images_inlined := st.stats.images_inlined + 1 } })
          else
            match mode, folderOk folder with
            | .download, some f =>
              match save_asset_to_file env (content.getD []) absolute_url f (strOf "images") st with
              | .error e => .error e
              | .ok (local_path, st) =>
                .ok (some (stripStr (local_path ++ ' ' :: descriptor)),
                  { st with stats :=
                    { st.stats with assets_downloaded := st.stats.assets_downloaded + 1 } })
            | _, _ => .ok (none, st)
        else .ok (some part, st)

/-- The candidate loop of `replace_srcset`, folding
`process_srcset_part` over the comma-separated candidates. -/
def process_srcset_parts (env : Env) (mode : AssetsMode) (folder : Option (List Char))
    (base : List Char) : List (List Char) → St → Except (List Char) (List (List Char) × St)
  | [], st => .ok ([], st)
  | p :: ps, st =>
    match process_srcset_part env mode folder base p st with
    | .error e => .error e
    | .ok (r, st) =>
      match process_srcset_parts env mode folder base ps st with
      | .error e => .error e
      | .ok (rs, st) =>
        match r with
        | some t => .ok (t :: rs, st)
        | none => .ok (rs, st)

/-- Embedding of the `replace_srcset` callback (source lines 349-388):
rewrite the candidate list and reassemble it as a double-quoted
`srcset="..."` attribute; when the rewritten list is empty, return the
original match. -/
def replace_srcset (env : Env) (mode : AssetsMode) (folder : Option (List Char))
    (base : List Char) (whole : List Char) (g : List Char) (st : St) :
    Except (List Char) (List Char × St) :=
  match process_srcset_parts env mode folder base (splitOnChar ',' g) st with
  | .error e => .error e
  | .ok (parts, st) =>
    if !parts.isEmpty then
      .ok (strOf "srcset=\"" ++ joinCommaSpace parts ++ ['"'], st)
    else .ok (whole, st)

/-- Embedding of the `replace_style_url` callback (source lines 397-420):
like `replace_image` but for the first inline-style `url(...)` token, and
— unlike `replace_image` — with no failure accounting: a falsy payload
just returns the original match. -/
def replace_style_url (env : Env) (mode : AssetsMode) (folder : Option (List Char))
    (base : List Char) (whole : List Char) (g : StyleG) (st : St) :
    Except (List Char) (List Char × St) :=
  if startsWithCS (strOf "data:") g.url then .ok (whole, st)
  else
    let absolute_url := env.urljoin base g.url
    let ((content, content_type), st) := fetch_resource env absolute_url st
    if contentTruthy content then
      if mode = .embed then
        let mime := get_mime_type g.url content_type
        let data_url := strOf "data:" ++ mime ++ strOf ";base64," ++ b64encode (content.getD [])
        .ok (g.g1 ++ data_url ++ g.g3,
          { st with stats := { st.stats with images_inlined := st.stats.images_inlined + 1 } })
      else
        match mode, folderOk folder with
        | .download, some f =>
          match save_asset_to_file env (content.getD []) absolute_url f (strOf "images") st with
          | .error e => .error e
          | .ok (local_path, st) =>
            .ok (g.g1 ++ local_path ++ g.g3,
              { st with stats :=
                { st.stats with assets_downloaded := st.stats.assets_downloaded + 1 } })
        | _, _ => .ok (whole, st)
    else .ok (whole, st)

/-- Embedding of one loop iteration of the `replace_source` callback
(source lines 436-464); the body duplicates the `replace_srcset`
candidate handling (without the redundant empty-pieces guard, which is
unreachable after the non-empty strip). -/
def process_source_part (env : Env) (mode : AssetsMode) (folder : Option (List Char))
    (base : List Char) (part0 : List Char) (st : St) :
    Except (List Char) (Option (List Char) × St) :=
  let part := stripStr part0
  if part.isEmpty then .ok (none, st)
  else
    match splitWS part with
    | [] => .ok (none, st)
    | src :: restPieces =>
      let descriptor := restPieces.headD []
      if startsWithCS (strOf "data:") src then .ok (some part, st)
      else
        let absolute_url := env.urljoin base src
        let ((content, content_type), st) := fetch_resource env absolute_url st
        if contentTruthy content then
          if mode = .embed then
            let mime := get_mime_type src content_type
            let data_url := strOf "data:" ++ mime ++ strOf ";base64,"
              ++ b64encode (content.getD [])
            .ok (some (stripStr (data_url ++ ' ' :: descriptor)),
              { st with stats :=
                { st.stats with images_inlined := st.stats.images_inlined + 1 } })
          else
            match mode, folderOk folder with
            | .download, some f =>
              match save_asset_to_file env (content.getD []) absolute_url f (strOf "images") st with
              | .error e => .error e
              | .ok (local_path, st) =>
                .ok (some (stripStr (local_path ++ ' ' :: descriptor)),
                  { st with stats :=
                    { st.stats with assets_downloaded := st.stats.assets_downloaded + 1 } })
            | _, _ => .ok (none, st)
        else .ok (some part, st)

/-- The candidate loop of `replace_source`. -/
def process_source_parts (env : Env) (mode : AssetsMode) (folder : Option (List Char))
    (base : List Char) : List (List Char) → St → Except (List Char) (List (List Char) × St)
  | [], st => .ok ([], st)
  | p :: ps, st =>
    match process_source_part env mode folder base p st with
    | .error e => .error e
    | .ok (r, st) =>
      match process_source_parts env mode folder base ps st with
      | .error e => .error e
      | .ok (rs, st) =>
        match r with
        | some t => .ok (t :: rs, st)
        | none => .ok (rs, st)

/-- Embedding of the `replace_source` callback (source lines 429-468):
rewrite the candidate list and reassemble it inside the original
`<source ... srcset=...>` tag, keeping the original quote character. -/
def replace_source (env : Env) (mode : AssetsMode) (folder : Option (List Char))
    (base : List Char) (whole : List Char) (g : TagAttrG) (st : St) :
    Except (List Char) (List Char × St) :=
  match process_source_parts env mode folder base (splitOnChar ',' g.val) st with
  | .error e => .error e
  | .ok (parts, st) =>
    if !parts.isEmpty then
      .ok (g.g1 ++ g.quote :: (joinCommaSpace parts ++ g.g4), st)
    else .ok (whole, st)

/-! ## Stylesheet pass (source lines 249-308) -/

/-- Deduplicate, keeping first occurrences (the source collects hrefs
into a `set`; processing order is abstracted to discovery order — the
source consumes fetches in completion order, which no property proved
here depends on). -/
def dedupFirst : List (List Char) → List (List Char) → List (List Char)
  | [], _ => []
  | x :: xs, seen =>
    if seen.contains x then dedupFirst xs seen else x :: dedupFirst xs (x :: seen)

/-- The href captured at a `<link` tag by the union of the three
stylesheet patterns of source lines 251-255: a tag carrying both
`rel="stylesheet"` and an href (patterns 1 and 2 cover both attribute
orders), or a tag whose href value contains `.css` (pattern 3). -/
def stylesheetHrefOf (s : List Char) : Option (List Char) :=
  match parseLinkTag s with
  | none => none
  | some (_, relv, hrefv) =>
    match hrefv with
    | none => none
    | some h =>
      if (match relv with
          | some r => eqCI r (strOf "stylesheet")
          | none => false) then some h
      else if containsCI (strOf ".css") h then some h
      else none

/-- All stylesheet hrefs discovered in the document (the
`stylesheet_matches` set of source lines 257-260). -/
def stylesheetHrefs (html : List Char) : List (List Char) :=
  dedupFirst
    ((occsBy (startsWithCI (strOf "<link")) html).filterMap
      (fun i => stylesheetHrefOf (html.drop i)))
    []

/-- Models `href.split("?")[0]` (source line 288). -/
def stripQuery (href : List Char) : List Char := href.takeWhile (fun c => c != '?')

/-- The `count=1` link substitution of source lines 289-300: replace the
first `<link ...>` tag whose href value contains the query-stripped href
(the pattern `<link[^>]+href=["'][^"']*HREF[^"']*["'][^>]*>`, matched
case-insensitively). -/
def linkSubFirst (target repl html : List Char) : List Char :=
  match (occsBy (startsWithCI (strOf "<link")) html).findSome? (fun i =>
      match parseLinkTag (html.drop i) with
      | some (tlen, _, some h) => if containsCI target h then some (i, tlen) else none
      | _ => none) with
  | some (i, tlen) => html.take i ++ (repl ++ html.drop (i + tlen))
  | none => html

/-- Embedding of one stylesheet's processing (the loop body of source
lines 270-308): fetch, and on a truthy payload decode it and either
inline it (embed mode, after running the CSS inliner) or relocate it
(download mode with a truthy folder); the processing body is wrapped in a
`try`/`except` whose handler records a `CSS Parse-Fehler` — in this model
only the asset-store write can raise, and that exception is caught here.
A falsy payload records a `CSS nicht geladen` failure. -/
def process_stylesheet (env : Env) (mode : AssetsMode) (folder : Option (List Char))
    (base : List Char) (acc : List Char × St) (href : List Char) : List Char × St :=
  let (html, st) := acc
  let absolute_url := env.urljoin base href
  let ((content, content_type), st) := fetch_resource env absolute_url st
  if contentTruthy content then
    let css_content := decodeBytes (content.getD [])
    if mode = .embed then
      let (css2, st) := inline_css_resources env absolute_url css_content st
      let replacement := strOf "<style>/* Inlined: " ++ href ++ strOf " */\n"
        ++ css2 ++ strOf "</style>"
      (linkSubFirst (stripQuery href) replacement html,
        { st with stats :=
          { st.stats with stylesheets_inlined := st.stats.stylesheets_inlined + 1 } })
    else
      match mode, folderOk folder with
      | .download, some f =>
        match save_asset_to_file env (content.getD []) absolute_url f (strOf "css") st with
        | .ok (local_path, st) =>
          (linkSubFirst (stripQuery href)
            (strOf "<link rel=\"stylesheet\" href=\"" ++ local_path ++ strOf "\">") html,
            { st with stats :=
              { st.stats with assets_downloaded := st.stats.assets_downloaded + 1 } })
        | .error e =>
          (html,
            { st with
              stats := { st.stats with resources_failed := st.stats.resources_failed + 1 },
              errors := st.errors
                ++ [strOf "CSS Parse-Fehler: " ++ href ++ strOf " - " ++ e] })
      | _, _ => (html, st)
  else
    (html,
      { st with
        stats := { st.stats with resources_failed := st.stats.resources_failed + 1 },
        errors := st.errors
          ++ [strOf "CSS nicht geladen: " ++ href ++ strOf " - " ++ content_type] })

/-- The whole stylesheet pass: fold the per-href processing over the
discovered hrefs. -/
def stylesheetPass (env : Env) (mode : AssetsMode) (folder : Option (List Char))
    (base : List Char) (html : List Char) (st : St) : List Char × St :=
  (stylesheetHrefs html).foldl (process_stylesheet env mode folder base) (html, st)

/-! ## Script stripping and lazy-load normalization (source lines 221-247) -/

/-- Pass 1 (source lines 222-225): remove `<script>...</script>` blocks
and inline event-handler attributes in both quote forms. -/
def removeScriptsAndHandlers (html : List Char) : List Char :=
  let h1 := reSubP (findMatchBy tryScriptAt) (fun _ _ => []) (html.length + 1) html
  let h2 := reSubP (findMatchBy (tryHandlerAt '"')) (fun _ _ => []) (h1.length + 1) h1
  reSubP (findMatchBy (tryHandlerAt '\'')) (fun _ _ => []) (h2.length + 1) h2

/-- The lazy attribute names of source line 228. -/
def lazy_attrs : List (List Char) :=
  [strOf "data-src", strOf "data-lazy-src", strOf "data-original", strOf "data-lazy"]

/-- Pass 2 (source lines 227-247): promote deferred-loading attributes
into `src`/`srcset` and strip `loading="lazy"`. -/
def lazyNormalize (html : List Char) : List Char :=
  let h1 := lazy_attrs.foldl
    (fun h attr =>
      reSubP (findMatchBy (tryLazyAt attr))
        (fun _ g => g.g1 ++ (strOf " src=\"" ++ g.val ++ '"' :: g.g3)) (h.length + 1) h)
    html
  let h2 := reSubP (findMatchBy tryDataSrcsetAt)
    (fun _ g => g.1 ++ (strOf " srcset=\"" ++ g.2 ++ ['"'])) (h1.length + 1) h1
  reSubP (findMatchBy tryLoadingLazyAt) (fun _ _ => []) (h2.length + 1) h2

/-! ## Structural injections (source lines 473-512) -/

/-- The scroll-fix style block of source line 474. -/
def scroll_fix_css : List Char :=
  strOf "<style id=\"standalone-scroll-fix\">html, body \x7b overflow: auto !important; overflow-x: hidden !important; height: auto !important; max-height: none !important; position: static !important; \x7d</style>"

/-- Insert text immediately after the first `<body[^>]*>` tag (the
`count=1`, case-insensitive substitution of source lines 478 and 488);
the document is unchanged when no such tag completes with a `>`. -/
def insertAfterBodyTag (ins html : List Char) : List Char :=
  match findIdxBy (startsWithCI (strOf "<body")) html with
  | some i =>
    let rest := html.drop (i + 5)
    let region := rest.takeWhile (fun c => c != '>')
    if region.length = rest.length then html
    else
      html.take (i + 5 + region.length + 1) ++ (ins ++ html.drop (i + 5 + region.length + 1))
  | none => html

/-- Pass 8 (source lines 473-480): insert the scroll-fix style before the
first `</head>`, else after the first `<body ...>` tag, else prepend. -/
def injectScrollFix (html : List Char) : List Char :=
  match findIdxBy (startsWithCI (strOf "</head>")) html with
  | some i => html.take i ++ (scroll_fix_css ++ html.drop i)
  | none =>
    if containsCI (strOf "<body") html then insertAfterBodyTag scroll_fix_css html
    else scroll_fix_css ++ html

/-- The watermark fragment (the module-level `WATERMARK_HTML` template of
source lines 46-88, with the braces of the `.format` escaping collapsed
and the timestamp and project name substituted). -/
def watermark_html (timestamp project_name : List Char) : List Char :=
  strOf "\n<style>\n.preview-watermark \x7b\n    position: fixed;\n    top: 0;\n    left: 0;\n    right: 0;\n    background: linear-gradient(135deg, #667eea 0%, #764ba2 100%);\n    color: white;\n    padding: 12px 20px;\n    font-family: -apple-system, BlinkMacSystemFont, 'Segoe UI', Roboto, sans-serif;\n    font-size: 14px;\n    z-index: 999999;\n    display: flex;\n    justify-content: space-between;\n    align-items: center;\n    box-shadow: 0 2px 10px rgba(0,0,0,0.2);\n\x7d\n.preview-watermark strong \x7b font-size: 16px; \x7d\n.preview-watermark .preview-meta \x7b font-size: 12px; opacity: 0.9; \x7d\n.preview-watermark-corner \x7b\n    position: fixed;\n    bottom: 20px;\n    right: 20px;\n    background: rgba(102, 126, 234, 0.9);\n    color: white;\n    padding: 8px 16px;\n    border-radius: 20px;\n    font-family: -apple-system, BlinkMacSystemFont, 'Segoe UI', Roboto, sans-serif;\n    font-size: 12px;\n    z-index: 999999;\n    box-shadow: 0 2px 10px rgba(0,0,0,0.2);\n\x7d\nbody \x7b padding-top: 50px !important; \x7d\n/* Scrollen erzwingen - überschreibt overflow:hidden von Modals/Cookie-Bannern */\nhtml, body \x7b overflow: auto !important; overflow-x: hidden !important; height: auto !important; max-height: none !important; position: static !important; \x7d\n</style>\n<div class=\"preview-watermark\">\n    <div><strong>🔍 PREVIEW</strong> - Nur zur Ansicht, nicht final</div>\n    <div class=\"preview-meta\">Erstellt: "
  ++ timestamp ++ strOf " | " ++ project_name
  ++ strOf "</div>\n</div>\n<div class=\"preview-watermark-corner\">⚠️ Vorschau</div>\n"

/-- Pass 9 (source lines 482-490): insert the watermark after the first
`<body ...>` tag, else prepend. -/
def injectWatermark (env : Env) (project_name : List Char) (html : List Char) : List Char :=
  let watermark := watermark_html env.nowWm project_name
  if containsCI (strOf "<body") html then insertAfterBodyTag watermark html
  else watermark ++ html

/-- Python `f'{s:<62}'`: pad on the right with spaces to width 62. -/
def padTo62 (s : List Char) : List Char := s ++ List.replicate (62 - s.length) ' '

/-- The 74-character horizontal rule of the provenance comment box. -/
def metaRule : List Char := List.replicate 74 '═'

/-- The provenance comment of source lines 496-508, with the project
name, the clock reading and the bounded source domain formatted in. -/
def meta_comment (env : Env) (project_name base_url : List Char) : List Char :=
  let netloc := netlocOf base_url
  let domain := if !netloc.isEmpty then netloc.take 50 else base_url.take 50
  strOf "<!--\n╔" ++ metaRule ++ strOf "╗\n║  STANDALONE HTML PREVIEW                                                  ║\n╠" ++ metaRule
  ++ strOf "╣\n║  Projekt:  "
  ++ padTo62 project_name
  ++ strOf " ║\n║  Erstellt: "
  ++ padTo62 env.nowMeta
  ++ strOf " ║\n║  Quelle:   "
  ++ padTo62 domain
  ++ strOf " ║\n╠" ++ metaRule
  ++ strOf "╣\n║  Diese Datei funktioniert offline und enthält alle eingebetteten         ║\n║  Ressourcen. Sie dient nur zur Vorschau - nicht für Produktion.          ║\n╚" ++ metaRule ++ strOf "╝\n-->\n"

/-- Pass 10 (source lines 492-512): insert the provenance comment after
the first doctype declaration, else prepend. -/
def injectMetaComment (env : Env) (project_name base_url html : List Char) : List Char :=
  let meta := meta_comment env project_name base_url
  match findIdxBy (startsWithCI (strOf "<!DOCTYPE")) html with
  | some i =>
    let rest := html.drop (i + 9)
    let region := rest.takeWhile (fun c => c != '>')
    if region.length = rest.length then html
    else
      html.take (i + 9 + region.length + 1)
        ++ ('\n' :: meta ++ html.drop (i + 9 + region.length + 1))
  | none => meta ++ html

/-! ## The pipeline (`create_standalone_html`, source lines 193-520) -/

/-- The result dictionary of `create_standalone_html` (html, stats,
errors), extended with the effect instrumentation of `St`. -/
structure ConvResult where
  html : List Char
  stats : Stats
  errors : List (List Char)
  fetchLog : List (List Char)
  files : List (List Char × List Nat)
deriving DecidableEq

/-- Embedding of `create_standalone_html`.  Concurrency of the stylesheet
fetches and the `max_workers` bound are abstracted away (fetches are
performed in discovery order); `REQUESTS_AVAILABLE` is modelled as true.
An uncaught exception in a substitution callback (an asset-store write
error in the image/srcset/style/source passes) aborts the conversion,
yielding `.error`. -/
def create_standalone_html (env : Env) (html0 base_url project_name : List Char)
    (include_watermark remove_scripts : Bool) (assets_mode : AssetsMode)
    (assets_folder : Option (List Char)) : Except (List Char) ConvResult :=
  let st0 : St := { stats := { total_size_before := html0.length, source_url := base_url } }
  let html1 := if remove_scripts then removeScriptsAndHandlers html0 else html0
  let html2 := lazyNormalize html1
  let (html3, st1) :=
    if assets_mode ≠ .hotlink then stylesheetPass env assets_mode assets_folder base_url html2 st0
    else (html2, st0)
  let step4 :=
    if assets_mode ≠ .hotlink then
      reSubE (findMatchBy (tryTagAttrAt (strOf "<img") (strOf "src")))
        (replace_image env assets_mode assets_folder base_url) (html3.length + 1) html3 st1
    else .ok (html3, st1)
  match step4 with
  | .error e => .error e
  | .ok (html4, st2) =>
    let step5 :=
      if assets_mode ≠ .hotlink then
        reSubE (findMatchBy trySrcsetAt)
          (replace_srcset env assets_mode assets_folder base_url) (html4.length + 1) html4 st2
      else .ok (html4, st2)
    match step5 with
    | .error e => .error e
    | .ok (html5, st3) =>
      let step6 :=
        if assets_mode ≠ .hotlink then
          reSubE (findMatchBy tryStyleAt)
            (replace_style_url env assets_mode assets_folder base_url)
            (html5.length + 1) html5 st3
        else .ok (html5, st3)
      match step6 with
      | .error e => .error e
      | .ok (html6, st4) =>
        let step7 :=
          if assets_mode ≠ .hotlink then
            reSubE (findMatchBy (tryTagAttrAt (strOf "<source") (strOf "srcset")))
              (replace_source env assets_mode assets_folder base_url)
              (html6.length + 1) html6 st4
          else .ok (html6, st4)
        match step7 with
        | .error e => .error e
        | .ok (html7, st5) =>
          let html8 := injectScrollFix html7
          let html9 := if include_watermark then injectWatermark env project_name html8
            else html8
          let html10 := injectMetaComment env project_name base_url html9
          .ok { html := html10,
                stats := { st5.stats with total_size_after := html10.length },
                errors := st5.errors, fetchLog := st5.fetchLog, files := st5.files }

/-! ## Result projections (used to state concrete-run facts) -/

/-- Did the conversion complete without an uncaught exception? -/
def resOk : Except (List Char) ConvResult → Bool
  | .ok _ => true
  | .error _ => false

/-- The produced document (empty for an aborted conversion). -/
def resHtml : Except (List Char) ConvResult → List Char
  | .ok r => r.html
  | .error _ => []

/-- The error-record list (empty for an aborted conversion). -/
def resErrors : Except (List Char) ConvResult → List (List Char)
  | .ok r => r.errors
  | .error _ => []

/-- The `resources_failed` counter (zero for an aborted conversion). -/
def resFailed : Except (List Char) ConvResult → Nat
  | .ok r => r.stats.resources_failed
  | .error _ => 0

/-- The fetch log (empty for an aborted conversion). -/
def resLog : Except (List Char) ConvResult → List (List Char)
  | .ok r => r.fetchLog
  | .error _ => []

/-- The written files (empty for an aborted conversion). -/
def resFiles : Except (List Char) ConvResult → List (List Char × List Nat)
  | .ok r => r.files
  | .error _ => []

/-! ## Helper lemmas -/

/-- Reading back the code point of a `Char` built from a valid code point. -/
theorem toNat_ofNat_valid {n : Nat} (h : Nat.isValidChar n) : (Char.ofNat n).toNat = n := by
  unfold Char.ofNat
  rw [dif_pos h]
  unfold Char.ofNatAux Char.toNat
  simp [UInt32.toNat, UInt32.ofNatTruncate, UInt32.ofNat]

/-- ASCII lower-casing is idempotent. -/
theorem lc_idem (c : Char) : lc (lc c) = lc c := by
  by_cases h : 65 ≤ c.toNat ∧ c.toNat ≤ 90
  · have hv : Nat.isValidChar (c.toNat + 32) := Or.inl (by omega)
    have h1 : lc c = Char.ofNat (c.toNat + 32) := by unfold lc; rw [if_pos h]
    have h2 : (lc c).toNat = c.toNat + 32 := by rw [h1]; exact toNat_ofNat_valid hv
    have h3 : ¬(65 ≤ (lc c).toNat ∧ (lc c).toNat ≤ 90) := by rw [h2]; omega
    show (if 65 ≤ (lc c).toNat ∧ (lc c).toNat ≤ 90 then Char.ofNat ((lc c).toNat + 32) else lc c)
      = lc c
    rw [if_neg h3]
  · have h1 : lc c = c := by unfold lc; rw [if_neg h]
    rw [h1, h1]

/-- String lower-casing is idempotent. -/
theorem lowerStr_idem (s : List Char) : lowerStr (lowerStr s) = lowerStr s := by
  simp only [lowerStr, List.map_map]
  exact List.map_congr_left (fun c _ => lc_idem c)

/-- Tokens produced by `splitWSAux` contain no whitespace characters. -/
theorem splitWSAux_no_ws (s : List Char) :
    ∀ acc : List Char, (∀ c ∈ acc, isWS c = false) →
      ∀ t ∈ splitWSAux s acc, ∀ c ∈ t, isWS c = false := by
  induction s with
  | nil =>
    intro acc hacc t ht c hc
    simp only [splitWSAux] at ht
    by_cases he : acc.isEmpty
    · simp [he] at ht
    · simp [he] at ht
      subst ht
      exact hacc c (by simpa using hc)
  | cons a as ih =>
    intro acc hacc t ht c hc
    simp only [splitWSAux] at ht
    by_cases hws : isWS a
    · rw [if_pos hws] at ht
      by_cases he : acc.isEmpty
      · rw [if_pos he] at ht
        exact ih [] (by simp) t ht c hc
      · rw [if_neg he] at ht
        rcases List.mem_cons.mp ht with h | h
        · subst h
          exact hacc c (by simpa using hc)
        · exact ih [] (by simp) t h c hc
    · rw [if_neg hws] at ht
      refine ih (a :: acc) ?_ t ht c hc
      intro x hx
      rcases List.mem_cons.mp hx with h | h
      · subst h; exact Bool.eq_false_iff.mpr hws
      · exact hacc x h

/-- Tokens produced by `splitWS` contain no whitespace characters. -/
theorem splitWS_no_ws (s t : List Char) (ht : t ∈ splitWS s) :
    ∀ c ∈ t, isWS c = false :=
  splitWSAux_no_ws s [] (by simp) t ht

/-- Tokens produced by `splitWSAux` are non-empty. -/
theorem splitWSAux_ne_nil (s : List Char) :
    ∀ acc : List Char, ∀ t ∈ splitWSAux s acc, acc.isEmpty = false ∨ s ≠ [] → t ≠ [] := by
  induction s with
  | nil =>
    intro acc t ht _
    simp only [splitWSAux] at ht
    by_cases he : acc.isEmpty
    · simp [he] at ht
    · simp [he] at ht
      subst ht
      simp only [ne_eq, List.reverse_eq_nil_iff]
      intro hn
      rw [hn] at he
      exact he rfl
  | cons a as ih =>
    intro acc t ht _
    simp only [splitWSAux] at ht
    by_cases hws : isWS a
    · rw [if_pos hws] at ht
      by_cases he : acc.isEmpty
      · rw [if_pos he] at ht
        by_cases has : as = []
        · subst has; simp [splitWSAux] at ht
        · exact ih [] t ht (Or.inr has)
      · rw [if_neg he] at ht
        rcases List.mem_cons.mp ht with h | h
        · subst h
          simp only [ne_eq, List.reverse_eq_nil_iff]
          intro hn; rw [hn] at he; exact he rfl
        · by_cases has : as = []
          · subst has; simp [splitWSAux] at h
          · exact ih [] t h (Or.inr has)
    · rw [if_neg hws] at ht
      exact ih (a :: acc) t ht (Or.inl rfl)

/-- `stripStr` is the identity on a string whose first character and
whose reversed first character are not whitespace. -/
theorem stripStr_eq_self (s : List Char)
    (h1 : ∃ a t, s = a :: t ∧ isWS a = false)
    (h2 : ∃ b t, s.reverse = b :: t ∧ isWS b = false) : stripStr s = s := by
  obtain ⟨a, t, rfl, ha⟩ := h1
  obtain ⟨b, t2, hrev, hb⟩ := h2
  unfold stripStr
  rw [List.dropWhile_cons, ha]
  simp only [Bool.false_eq_true, if_false]
  rw [hrev, List.dropWhile_cons, hb]
  simp only [Bool.false_eq_true, if_false]
  rw [← hrev]
  simp

/-- When the callback of `reSubE` never raises, the substitution never
raises. -/
theorem reSubE_isOk {G : Type} (find : List Char → Option (Nat × Nat × G))
    (cb : List Char → G → St → Except (List Char) (List Char × St))
    (h : ∀ w g s, ∃ out, cb w g s = .ok out) :
    ∀ n doc st, ∃ out, reSubE find cb n doc st = .ok out := by
  intro n
  induction n with
  | zero => intro doc st; exact ⟨_, rfl⟩
  | succ m ih =>
    intro doc st
    rcases hf : find doc with _ | ⟨i, n', g⟩
    · exact ⟨(doc, st), by simp only [reSubE, hf]⟩
    · obtain ⟨⟨rep, st1⟩, hcb⟩ := h ((doc.drop i).take n') g st
      obtain ⟨⟨rest, st2⟩, hrec⟩ := ih (doc.drop (i + n')) st1
      exact ⟨(doc.take i ++ (rep ++ rest), st2), by simp only [reSubE, hf, hcb, hrec]⟩

/-! ## Concrete test environments for witnesses and counterexamples -/

/-- A simple resolver standing in for `urljoin` in concrete runs:
absolute references (containing `://`) pass through, relative ones are
appended to the base. -/
def joinSimple (b u : List Char) : List Char :=
  if containsSub (strOf "://") u then u else b ++ u

/-- A 32-hex-character digest stub for concrete runs. -/
def md5Stub : List Char → List Char := fun _ => strOf "0123456789abcdef0123456789abcdef"

/-- Environment whose fetches always succeed with a two-byte PNG payload. -/
def envPng : Env :=
  { fetch := fun _ => (some [137, 80], strOf "image/png"),
    urljoin := joinSimple, md5hex := md5Stub, saveFile := fun _ _ => .ok (),
    nowMeta := strOf "2026-10-12 00:00:00", nowWm := strOf "12.10.2026 00:00" }

/-- Environment whose fetches always fail (e.g. a non-2xx status turned
into an exception by `raise_for_status`). -/
def envFail : Env :=
  { envPng with fetch := fun _ => (none, strOf "404 Client Error: Not Found") }

/-- Environment whose fetches succeed with a zero-length payload. -/
def envEmptyPayload : Env :=
  { envPng with fetch := fun _ => (some [], strOf "image/png") }

/-! ## Claim C4 -/

/-- Claim C4, counterexample: `get_mime_type` does not give priority to a
file-extension match over a content-type substring match.  For the URL
`x.png` (extension match: png) with transport content type `text/css`
(substring match: css) the function returns `text/css`, not the
`image/png` the claimed extension priority would require: the earlier
row of the fixed table wins, and its content-type test fires. -/
theorem c4_counterexample :
    get_mime_type (strOf "x.png") (strOf "text/css") = strOf "text/css"
      ∧ strOf "text/css" ≠ strOf "image/png" := by
  exact ⟨by decide, by decide⟩

/-- Claim C4 (amended): priority is by the fixed row order of the table
(css, js, png, jpeg, gif, svg, webp, ico, woff2, woff, ttf, eot), each
row fired by a content-type substring match or a URL extension match, so
a content-type substring match in an earlier row beats an extension
match in a later row — for example any content type containing `css`
classifies as `text/css` regardless of the URL.  When no row matches,
the transport content type is returned verbatim, and when that is empty,
the generic binary classification is returned. -/
theorem c4_row_order_and_fallback :
    (∀ url content_type, containsSub (strOf "css") (lowerStr content_type) = true →
        get_mime_type url content_type = strOf "text/css")
    ∧ (∀ url content_type, mimeTableMatches url content_type = false →
        get_mime_type url content_type =
          if content_type = [] then strOf "application/octet-stream" else content_type) := by
  constructor
  · intro url ct h
    simp [get_mime_type, h]
  · intro url ct h
    simp only [mimeTableMatches, Bool.or_eq_false_iff] at h
    simp [get_mime_type, h]

/-- Claim C4, witness for the amended theorem's hypotheses. -/
theorem c4_witness :
    get_mime_type (strOf "ignored.png") (strOf "TEXT/CSS") = strOf "text/css"
      ∧ get_mime_type (strOf "x.bin") [] = strOf "application/octet-stream" := by
  constructor
  · exact c4_row_order_and_fallback.1 (strOf "ignored.png") (strOf "TEXT/CSS") (by decide)
  · exact (c4_row_order_and_fallback.2 (strOf "x.bin") [] (by decide)).trans (by decide)

/-! ## Claim C8 -/

/-- Claim C8, counterexample: the extension checks do not tolerate
trailing query strings for suffix-tested extensions.  `x.css?v=1` with an
empty content type is classified as `application/octet-stream`, while
`x.css` is classified as `text/css` — the `endswith`-style check is
defeated by the query. -/
theorem c8_counterexample :
    get_mime_type (strOf "x.css?v=1") [] = strOf "application/octet-stream"
      ∧ get_mime_type (strOf "x.css") [] = strOf "text/css"
      ∧ strOf "application/octet-stream" ≠ strOf "text/css" := by
  exact ⟨by decide, by decide, by decide⟩

/-- Claim C8 (amended): matching is case-insensitive (both inputs are
lowered before any test, so lowering them first does not change which
table row matches), but only the jpg/jpeg checks use substring matching
and hence tolerate a trailing query string: a URL containing `.jpg`
classifies as `image/jpeg` whatever follows, provided no earlier row
fires; the remaining extensions use suffix tests that a query defeats. -/
theorem c8_case_and_jpg_query :
    (∀ url content_type,
        mimeTableMatches (lowerStr url) (lowerStr content_type)
          = mimeTableMatches url content_type)
    ∧ (∀ url content_type,
        containsSub (strOf ".jpg") (lowerStr url) = true →
        containsSub (strOf "css") (lowerStr content_type) = false →
        endsWithCS (strOf ".css") (lowerStr url) = false →
        containsSub (strOf "javascript") (lowerStr content_type) = false →
        endsWithCS (strOf ".js") (lowerStr url) = false →
        containsSub (strOf "png") (lowerStr content_type) = false →
        endsWithCS (strOf ".png") (lowerStr url) = false →
        get_mime_type url content_type = strOf "image/jpeg") := by
  constructor
  · intro url ct
    simp [mimeTableMatches, lowerStr_idem]
  · intro url ct h1 h2 h3 h4 h5 h6 h7
    simp [get_mime_type, h1, h2, h3, h4, h5, h6, h7]

/-- Claim C8, witness for the amended theorem's hypotheses: the URL
`A.JPG?v=2` (query string and upper case) classifies as `image/jpeg`. -/
theorem c8_witness :
    get_mime_type (strOf "A.JPG?v=2") [] = strOf "image/jpeg"
      ∧ mimeTableMatches (lowerStr (strOf "A.JPG?v=2")) (lowerStr [])
          = mimeTableMatches (strOf "A.JPG?v=2") [] := by
  constructor
  · exact c8_case_and_jpg_query.2 (strOf "A.JPG?v=2") [] (by decide) (by decide) (by decide)
      (by decide) (by decide) (by decide) (by decide)
  · exact c8_case_and_jpg_query.1 (strOf "A.JPG?v=2") []

/-! ## Claim C6 -/

/-- Claim C6: in download mode the filename computed by
`save_asset_to_file` is a function of the absolute source URL only: it is
the fixed-width 12-character prefix of the URL's md5 hex digest plus an
extension of bounded length (at most 11 characters) derived from the
URL's final path segment, and the relative path returned for a
successful save is `<folder>/<type>/<that filename>` for every content
byte string — the content plays no part in the name, so the same URL
yields the same filename and path whenever it is encountered. -/
theorem c6_filename_from_url (env : Env) (url assets_folder asset_type : List Char)
    (hmd5 : (env.md5hex url).length = 32) :
    asset_filename env url = (env.md5hex url).take 12 ++ asset_ext url
    ∧ ((env.md5hex url).take 12).length = 12
    ∧ (asset_ext url).length ≤ 11
    ∧ (∀ content st res,
        save_asset_to_file env content url assets_folder asset_type st = .ok res →
        res.1 = assets_folder ++ '/' :: asset_type ++ '/' :: asset_filename env url) := by
  refine ⟨rfl, ?_, ?_, ?_⟩
  · simp [List.length_take, hmd5]
  · unfold asset_ext
    dsimp only
    repeat' split
    all_goals simp
  · intro content st res h
    unfold save_asset_to_file at h
    dsimp only at h
    cases hsf : env.saveFile
        (assets_folder ++ '/' :: asset_type ++ '/' :: asset_filename env url) content with
    | error e => rw [hsf] at h; exact absurd h (by simp)
    | ok u => rw [hsf] at h; injection h with h'; rw [← h']

/-- Claim C6, witness: a concrete environment whose digest function
returns 32 hex characters, saving two different byte strings for the same
URL, yields the same 12+ext filename and path both times. -/
theorem c6_witness :
    (∀ content st res,
        save_asset_to_file
          { fetch := fun _ => (none, []),
            urljoin := fun b u => b ++ u,
            md5hex := fun _ => strOf "0123456789abcdef0123456789abcdef",
            saveFile := fun _ _ => .ok (),
            nowMeta := [], nowWm := [] }
          content (strOf "http://e/img/photo.png") (strOf "assets") (strOf "images") st
          = .ok res →
        res.1 = strOf "assets/images/0123456789ab.png")
    ∧ (asset_ext (strOf "http://e/img/photo.png")).length ≤ 11 := by
  constructor
  · intro content st res h
    have := (c6_filename_from_url
      { fetch := fun _ => (none, []),
        urljoin := fun b u => b ++ u,
        md5hex := fun _ => strOf "0123456789abcdef0123456789abcdef",
        saveFile := fun _ _ => .ok (),
        nowMeta := [], nowWm := [] }
      (strOf "http://e/img/photo.png") (strOf "assets") (strOf "images")
      (by decide)).2.2.2 content st res h
    rw [this]
    decide
  · exact (c6_filename_from_url
      { fetch := fun _ => (none, []),
        urljoin := fun b u => b ++ u,
        md5hex := fun _ => strOf "0123456789abcdef0123456789abcdef",
        saveFile := fun _ _ => .ok (),
        nowMeta := [], nowWm := [] }
      (strOf "http://e/img/photo.png") (strOf "assets") (strOf "images")
      (by decide)).2.2.1

/-! ## Claim C7 -/

/-- Claim C7: for every srcset candidate (in both the `srcset` pass and
the `<picture><source>` pass) whose whitespace-trimmed text splits into a
URL and one descriptor token, the descriptor is preserved verbatim: a
successfully fetched candidate becomes the new URL (inline data URL in
embed mode, relocated path in download mode) followed by a single space
and the original descriptor token, while a candidate that is already
inline or whose fetch fails keeps its trimmed text verbatim in the
reassembled list. -/
theorem c7_descriptor_preserved (env : Env) (folder : Option (List Char))
    (base part : List Char) (st : St) (src d : List Char)
    (hsplit : splitWS (stripStr part) = [src, d])
    (hne : (stripStr part).isEmpty = false) :
    (startsWithCS (strOf "data:") src = true →
      process_srcset_part env .embed folder base part st = .ok (some (stripStr part), st)
      ∧ process_source_part env .embed folder base part st = .ok (some (stripStr part), st))
    ∧ (∀ err, env.fetch (env.urljoin base src) = (none, err) →
        startsWithCS (strOf "data:") src = false →
        process_srcset_part env .embed folder base part st
          = .ok (some (stripStr part), addLog st [env.urljoin base src])
        ∧ process_source_part env .embed folder base part st
          = .ok (some (stripStr part), addLog st [env.urljoin base src]))
    ∧ (∀ bytes ct, env.fetch (env.urljoin base src) = (some bytes, ct) →
        bytes.isEmpty = false → startsWithCS (strOf "data:") src = false →
        process_srcset_part env .embed folder base part st
          = .ok (some (strOf "data:" ++ get_mime_type src ct ++ strOf ";base64,"
                ++ b64encode bytes ++ ' ' :: d),
              { st with
                fetchLog := st.fetchLog ++ [env.urljoin base src],
                stats := { st.stats with images_inlined := st.stats.images_inlined + 1 } })
        ∧ process_source_part env .embed folder base part st
          = .ok (some (strOf "data:" ++ get_mime_type src ct ++ strOf ";base64,"
                ++ b64encode bytes ++ ' ' :: d),
              { st with
                fetchLog := st.fetchLog ++ [env.urljoin base src],
                stats := { st.stats with images_inlined := st.stats.images_inlined + 1 } }))
    ∧ (∀ bytes ct f, env.fetch (env.urljoin base src) = (some bytes, ct) →
        bytes.isEmpty = false → startsWithCS (strOf "data:") src = false →
        f.isEmpty = false → (∀ c, f.head? = some c → isWS c = false) →
        env.saveFile (f ++ '/' :: strOf "images" ++ '/'
          :: asset_filename env (env.urljoin base src)) bytes = .ok () →
        process_srcset_part env .download (some f) base part st
          = .ok (some ((f ++ '/' :: strOf "images" ++ '/'
                :: asset_filename env (env.urljoin base src)) ++ ' ' :: d),
              { st with
                fetchLog := st.fetchLog ++ [env.urljoin base src],
                files := st.files ++ [(f ++ '/' :: strOf "images" ++ '/'
                  :: asset_filename env (env.urljoin base src), bytes)],
                stats := { st.stats with
                  assets_downloaded := st.stats.assets_downloaded + 1 } })) := by
  have hd_mem : d ∈ splitWS (stripStr part) := by rw [hsplit]; simp
  have hd_ws : ∀ c ∈ d, isWS c = false := splitWS_no_ws _ _ hd_mem
  have hd_ne : d ≠ [] := splitWSAux_ne_nil (stripStr part) [] d hd_mem
    (Or.inr (by intro hnil; rw [hnil] at hne; simp at hne))
  have hstrip : ∀ x : List Char, (∃ a t, x = a :: t ∧ isWS a = false) →
      stripStr (x ++ ' ' :: d) = x ++ ' ' :: d := by
    intro x hx
    refine stripStr_eq_self _ ?_ ?_
    · obtain ⟨a, t, rfl, ha⟩ := hx
      exact ⟨a, t ++ ' ' :: d, by simp, ha⟩
    · have hrev : (x ++ ' ' :: d).reverse = d.reverse ++ (' ' :: x.reverse) := by simp
      cases hdr : d.reverse with
      | nil => simp at hdr; exact absurd hdr hd_ne
      | cons b t2 =>
        refine ⟨b, t2 ++ ' ' :: x.reverse, by rw [hrev, hdr]; simp, ?_⟩
        have hb_mem : b ∈ d := by
          rw [← List.mem_reverse, hdr]; simp
        exact hd_ws b hb_mem
  refine ⟨?_, ?_, ?_, ?_⟩
  · intro hdata
    constructor <;>
      simp [process_srcset_part, process_source_part, hne, hsplit, hdata]
  · intro err hfetch hdata
    constructor <;>
      simp [process_srcset_part, process_source_part, fetch_resource, contentTruthy,
        hne, hsplit, hdata, hfetch, addLog]
  · intro bytes ct hfetch hbytes hdata
    have hhead : stripStr ((strOf "data:" ++ get_mime_type src ct ++ strOf ";base64,"
          ++ b64encode bytes) ++ ' ' :: d)
        = (strOf "data:" ++ get_mime_type src ct ++ strOf ";base64,"
          ++ b64encode bytes) ++ ' ' :: d :=
      hstrip _ ⟨'d', strOf "ata:" ++ get_mime_type src ct ++ strOf ";base64,"
        ++ b64encode bytes, by simp [strOf], by decide⟩
    simp only [List.append_assoc] at hhead
    constructor <;>
      simp [process_srcset_part, process_source_part, fetch_resource, contentTruthy,
        hne, hsplit, hdata, hfetch, hbytes, addLog, hhead]
  · intro bytes ct f hfetch hbytes hdata hf hfh hsave
    have hpath : stripStr ((f ++ '/' :: strOf "images" ++ '/'
          :: asset_filename env (env.urljoin base src)) ++ ' ' :: d)
        = (f ++ '/' :: strOf "images" ++ '/'
          :: asset_filename env (env.urljoin base src)) ++ ' ' :: d := by
      refine hstrip _ ?_
      cases hfc : f with
      | nil => rw [hfc] at hf; simp at hf
      | cons a t =>
        exact ⟨a, t ++ '/' :: strOf "images" ++ '/'
          :: asset_filename env (env.urljoin base src), by simp,
          hfh a (by rw [hfc]; rfl)⟩
    simp only [List.append_assoc, List.cons_append] at hpath hsave
    simp [process_srcset_part, fetch_resource, contentTruthy, folderOk,
      save_asset_to_file, hne, hsplit, hdata, hfetch, hbytes, hf, hsave, addLog, hpath]

/-- Claim C7, witness: a fetch-failure candidate keeps its trimmed text,
and a successfully embedded candidate is the data URL followed by the
original `2x` descriptor. -/
theorem c7_witness :
    (process_srcset_part envFail .embed none (strOf "http://e/") (strOf " u.png 2x ") {}
        = .ok (some (stripStr (strOf " u.png 2x ")),
            addLog {} [envFail.urljoin (strOf "http://e/") (strOf "u.png")]))
    ∧ (process_srcset_part envPng .embed none (strOf "http://e/") (strOf "u.png 2x") {}
        = .ok (some (strOf "data:" ++ get_mime_type (strOf "u.png") (strOf "image/png")
              ++ strOf ";base64," ++ b64encode [137, 80] ++ ' ' :: strOf "2x"),
            { ({} : St) with
              fetchLog := ({} : St).fetchLog
                ++ [envPng.urljoin (strOf "http://e/") (strOf "u.png")],
              stats := { ({} : St).stats with
                images_inlined := ({} : St).stats.images_inlined + 1 } })) := by
  constructor
  · exact ((c7_descriptor_preserved envFail none (strOf "http://e/") (strOf " u.png 2x ") {}
        (strOf "u.png") (strOf "2x") (by decide) (by decide)).2.1
      (strOf "404 Client Error: Not Found") (by decide) (by decide)).1
  · exact ((c7_descriptor_preserved envPng none (strOf "http://e/") (strOf "u.png 2x") {}
        (strOf "u.png") (strOf "2x") (by decide) (by decide)).2.2.1
      [137, 80] (strOf "image/png") (by decide) (by decide) (by decide)).1

/-! ## Claim C9 -/

/-- Claim C9: a fetch that succeeds with a zero-length payload is treated
by every pass exactly like a fetch failure — the truthiness test on the
payload makes the original reference stay unchanged in all five passes,
and in the image-src and stylesheet passes the `resources_failed`
counter is incremented and an error record appended even though the
transport reported success.  (The srcset/style/source passes keep the
text with no accounting, exactly as on a failed fetch.) -/
theorem c9_empty_payload_like_failure (env : Env) (mode : AssetsMode)
    (folder : Option (List Char)) (base whole href html part : List Char)
    (g : TagAttrG) (gs : StyleG) (st : St) :
    (∀ ct, env.fetch (env.urljoin base g.val) = (some [], ct) →
      startsWithCS (strOf "data:") g.val = false →
      replace_image env mode folder base whole g st
        = .ok (whole, { st with
            fetchLog := st.fetchLog ++ [env.urljoin base g.val],
            stats := { st.stats with resources_failed := st.stats.resources_failed + 1 },
            errors := st.errors ++ [strOf "Bild nicht geladen: " ++ g.val] }))
    ∧ (∀ ct, env.fetch (env.urljoin base href) = (some [], ct) →
      process_stylesheet env mode folder base (html, st) href
        = (html, { st with
            fetchLog := st.fetchLog ++ [env.urljoin base href],
            stats := { st.stats with resources_failed := st.stats.resources_failed + 1 },
            errors := st.errors
              ++ [strOf "CSS nicht geladen: " ++ href ++ strOf " - " ++ ct] }))
    ∧ (∀ ct src rest, (stripStr part).isEmpty = false →
      splitWS (stripStr part) = src :: rest →
      startsWithCS (strOf "data:") src = false →
      env.fetch (env.urljoin base src) = (some [], ct) →
      process_srcset_part env mode folder base part st
        = .ok (some (stripStr part), addLog st [env.urljoin base src])
      ∧ process_source_part env mode folder base part st
        = .ok (some (stripStr part), addLog st [env.urljoin base src]))
    ∧ (∀ ct, env.fetch (env.urljoin base gs.url) = (some [], ct) →
      startsWithCS (strOf "data:") gs.url = false →
      replace_style_url env mode folder base whole gs st
        = .ok (whole, addLog st [env.urljoin base gs.url])) := by
  refine ⟨?_, ?_, ?_, ?_⟩
  · intro ct hfetch hdata
    simp [replace_image, fetch_resource, contentTruthy, hfetch, hdata, addLog]
  · intro ct hfetch
    simp [process_stylesheet, fetch_resource, contentTruthy, hfetch, addLog]
  · intro ct src rest hne hsplit hdata hfetch
    constructor <;>
      simp [process_srcset_part, process_source_part, fetch_resource, contentTruthy,
        hne, hsplit, hdata, hfetch, addLog]
  · intro ct hfetch hdata
    simp [replace_style_url, fetch_resource, contentTruthy, hfetch, hdata, addLog]

/-- Claim C9, witness: under an environment whose transport succeeds with
zero bytes, the image callback keeps the tag and accounts a failure, and
a srcset candidate is kept with no accounting. -/
theorem c9_witness :
    (replace_image envEmptyPayload .embed none (strOf "http://e/")
        (strOf "<img src=\"u.png\">")
        { g1 := strOf "<img src=", quote := '"', val := strOf "u.png", g4 := strOf "\">" } {}
      = .ok (strOf "<img src=\"u.png\">", { ({} : St) with
          fetchLog := ({} : St).fetchLog
            ++ [envEmptyPayload.urljoin (strOf "http://e/") (strOf "u.png")],
          stats := { ({} : St).stats with
            resources_failed := ({} : St).stats.resources_failed + 1 },
          errors := ({} : St).errors ++ [strOf "Bild nicht geladen: " ++ strOf "u.png"] }))
    ∧ (process_srcset_part envEmptyPayload .embed none (strOf "http://e/")
        (strOf "u.png 2x") {}
      = .ok (some (stripStr (strOf "u.png 2x")),
          addLog {} [envEmptyPayload.urljoin (strOf "http://e/") (strOf "u.png")])) := by
  constructor
  · exact (c9_empty_payload_like_failure envEmptyPayload .embed none (strOf "http://e/")
      (strOf "<img src=\"u.png\">") [] [] (strOf "u.png 2x")
      { g1 := strOf "<img src=", quote := '"', val := strOf "u.png", g4 := strOf "\">" }
      { g1 := [], url := [], g3 := [] } {}).1 (strOf "image/png") (by decide) (by decide)
  · exact ((c9_empty_payload_like_failure envEmptyPayload .embed none (strOf "http://e/")
      (strOf "<img src=\"u.png\">") [] [] (strOf "u.png 2x")
      { g1 := strOf "<img src=", quote := '"', val := strOf "u.png", g4 := strOf "\">" }
      { g1 := [], url := [], g3 := [] } {}).2.2.1 (strOf "image/png") (strOf "u.png")
      [strOf "2x"] (by decide) (by decide) (by decide) (by decide)).1

/-! ## Claim C3 -/

/-- Claim C3 (amended): failed-fetch accounting holds for the stylesheet
and image-src passes — the original reference is left unchanged, the
failure counter is incremented by exactly one, and exactly one error
record naming the reference is appended.  In the srcset, inline-style
and `<source>` passes a failed fetch leaves the candidate text in place
(whitespace-trimmed, inside a reassembled attribute) but performs no
accounting at all. -/
theorem c3_failure_accounting (env : Env) (mode : AssetsMode)
    (folder : Option (List Char)) (base whole href html : List Char)
    (g : TagAttrG) (st : St) :
    (∀ err, env.fetch (env.urljoin base g.val) = (none, err) →
      startsWithCS (strOf "data:") g.val = false →
      replace_image env mode folder base whole g st
        = .ok (whole, { st with
            fetchLog := st.fetchLog ++ [env.urljoin base g.val],
            stats := { st.stats with resources_failed := st.stats.resources_failed + 1 },
            errors := st.errors ++ [strOf "Bild nicht geladen: " ++ g.val] }))
    ∧ (∀ err, env.fetch (env.urljoin base href) = (none, err) →
      process_stylesheet env mode folder base (html, st) href
        = (html, { st with
            fetchLog := st.fetchLog ++ [env.urljoin base href],
            stats := { st.stats with resources_failed := st.stats.resources_failed + 1 },
            errors := st.errors
              ++ [strOf "CSS nicht geladen: " ++ href ++ strOf " - " ++ err] })) := by
  constructor
  · intro err hfetch hdata
    simp [replace_image, fetch_resource, contentTruthy, hfetch, hdata, addLog]
  · intro err hfetch
    simp [process_stylesheet, fetch_resource, contentTruthy, hfetch, addLog]

/-- Claim C3, witness: a failing image fetch keeps the tag text and
accounts exactly one failure and one error record. -/
theorem c3_witness :
    replace_image envFail .embed none (strOf "http://e/") (strOf "<img src=\"u.png\">")
      { g1 := strOf "<img src=", quote := '"', val := strOf "u.png", g4 := strOf "\">" } {}
      = .ok (strOf "<img src=\"u.png\">", { ({} : St) with
          fetchLog := ({} : St).fetchLog
            ++ [envFail.urljoin (strOf "http://e/") (strOf "u.png")],
          stats := { ({} : St).stats with
            resources_failed := ({} : St).stats.resources_failed + 1 },
          errors := ({} : St).errors
            ++ [strOf "Bild nicht geladen: " ++ strOf "u.png"] }) := by
  exact (c3_failure_accounting envFail .embed none (strOf "http://e/")
    (strOf "<img src=\"u.png\">") [] []
    { g1 := strOf "<img src=", quote := '"', val := strOf "u.png", g4 := strOf "\">" }
    {}).1 (strOf "404 Client Error: Not Found") (by decide) (by decide)

/-! ## Claim C5 -/

/-- Claim C5 (amended): every reference that already carries the inline
`data:` scheme is skipped by the detection of every pass before any
fetch is attempted — the candidate text and the whole state (including
the fetch log) are returned unchanged.  This covers the image, srcset,
inline-style, `<source>` and CSS-url callbacks.  (The full idempotence
claim fails: the stylesheet `<link>` patterns can rediscover link-shaped
text inside a previously inlined `<style>` block, see the
counterexample.) -/
theorem c5_data_urls_never_fetched (env : Env) (mode : AssetsMode)
    (folder : Option (List Char)) (base whole part : List Char)
    (g : TagAttrG) (gs : StyleG) (url : List Char) (st : St) :
    (startsWithCS (strOf "data:") g.val = true →
      replace_image env mode folder base whole g st = .ok (whole, st))
    ∧ (∀ src rest, (stripStr part).isEmpty = false →
        splitWS (stripStr part) = src :: rest →
        startsWithCS (strOf "data:") src = true →
        process_srcset_part env mode folder base part st = .ok (some (stripStr part), st)
        ∧ process_source_part env mode folder base part st = .ok (some (stripStr part), st))
    ∧ (startsWithCS (strOf "data:") gs.url = true →
      replace_style_url env mode folder base whole gs st = .ok (whole, st))
    ∧ (startsWithCS (strOf "data:") url = true →
      replace_url env base whole url st = (whole, st)) := by
  refine ⟨?_, ?_, ?_, ?_⟩
  · intro hdata
    simp [replace_image, hdata]
  · intro src rest hne hsplit hdata
    constructor <;> simp [process_srcset_part, process_source_part, hne, hsplit, hdata]
  · intro hdata
    simp [replace_style_url, hdata]
  · intro hdata
    simp [replace_url, hdata]

/-- Claim C5, witness: a `data:` image src and a `data:` srcset candidate
are returned unchanged with an unchanged state (no fetch performed). -/
theorem c5_witness :
    (replace_image envFail .embed none (strOf "http://e/")
        (strOf "<img src=\"data:image/png;base64,AA\">")
        { g1 := strOf "<img src=", quote := '"',
          val := strOf "data:image/png;base64,AA", g4 := strOf "\">" } {}
      = .ok (strOf "<img src=\"data:image/png;base64,AA\">", {}))
    ∧ (process_srcset_part envFail .embed none (strOf "http://e/")
        (strOf "data:image/gif;base64 2x") {}
      = .ok (some (stripStr (strOf "data:image/gif;base64 2x")), {})) := by
  constructor
  · exact (c5_data_urls_never_fetched envFail .embed none (strOf "http://e/")
      (strOf "<img src=\"data:image/png;base64,AA\">") (strOf "data:image/gif;base64 2x")
      { g1 := strOf "<img src=", quote := '"',
        val := strOf "data:image/png;base64,AA", g4 := strOf "\">" }
      { g1 := [], url := [], g3 := [] } [] {}).1 (by decide)
  · exact ((c5_data_urls_never_fetched envFail .embed none (strOf "http://e/")
      (strOf "<img src=\"data:image/png;base64,AA\">") (strOf "data:image/gif;base64 2x")
      { g1 := strOf "<img src=", quote := '"',
        val := strOf "data:image/png;base64,AA", g4 := strOf "\">" }
      { g1 := [], url := [], g3 := [] } [] {}).2.1 (strOf "data:image/gif;base64")
      [strOf "2x"] (by decide) (by decide) (by decide)).1

/-! ## Claim C10 -/

/-- Claim C10 (amended): with `assets_mode='download'` and
`assets_folder=None`, a successfully fetched resource is still fetched
but no file is written, no counter is incremented and no error is
recorded; the image-src, inline-style and stylesheet passes silently
leave the reference unchanged, but a successfully fetched srcset /
`<source>` candidate is dropped from the rewritten candidate list (the
attribute survives only when the rewritten list ends up empty). -/
theorem c10_download_none_behavior (env : Env) (base whole href html part : List Char)
    (g : TagAttrG) (gs : StyleG) (st : St) :
    (∀ bytes ct, env.fetch (env.urljoin base g.val) = (some bytes, ct) →
      bytes.isEmpty = false → startsWithCS (strOf "data:") g.val = false →
      replace_image env .download none base whole g st
        = .ok (whole, addLog st [env.urljoin base g.val]))
    ∧ (∀ bytes ct, env.fetch (env.urljoin base gs.url) = (some bytes, ct) →
      bytes.isEmpty = false → startsWithCS (strOf "data:") gs.url = false →
      replace_style_url env .download none base whole gs st
        = .ok (whole, addLog st [env.urljoin base gs.url]))
    ∧ (∀ bytes ct, env.fetch (env.urljoin base href) = (some bytes, ct) →
      bytes.isEmpty = false →
      process_stylesheet env .download none base (html, st) href
        = (html, addLog st [env.urljoin base href]))
    ∧ (∀ bytes ct src rest, (stripStr part).isEmpty = false →
      splitWS (stripStr part) = src :: rest →
      startsWithCS (strOf "data:") src = false →
      env.fetch (env.urljoin base src) = (some bytes, ct) → bytes.isEmpty = false →
      process_srcset_part env .download none base part st
        = .ok (none, addLog st [env.urljoin base src])
      ∧ process_source_part env .download none base part st
        = .ok (none, addLog st [env.urljoin base src])) := by
  refine ⟨?_, ?_, ?_, ?_⟩
  · intro bytes ct hfetch hbytes hdata
    simp [replace_image, fetch_resource, contentTruthy, folderOk, hfetch, hbytes, hdata,
      addLog]
  · intro bytes ct hfetch hbytes hdata
    simp [replace_style_url, fetch_resource, contentTruthy, folderOk, hfetch, hbytes,
      hdata, addLog]
  · intro bytes ct hfetch hbytes
    simp [process_stylesheet, fetch_resource, contentTruthy, folderOk, hfetch, hbytes,
      addLog]
  · intro bytes ct src rest hne hsplit hdata hfetch hbytes
    constructor <;>
      simp [process_srcset_part, process_source_part, fetch_resource, contentTruthy,
        folderOk, hne, hsplit, hdata, hfetch, hbytes, addLog]

/-- Claim C10, witness: in download mode with no folder the image
callback leaves the tag unchanged while logging the fetch, and a
successfully fetched srcset candidate is dropped. -/
theorem c10_witness :
    (replace_image envPng .download none (strOf "http://e/") (strOf "<img src=\"u.png\">")
        { g1 := strOf "<img src=", quote := '"', val := strOf "u.png", g4 := strOf "\">" } {}
      = .ok (strOf "<img src=\"u.png\">",
          addLog {} [envPng.urljoin (strOf "http://e/") (strOf "u.png")]))
    ∧ (process_srcset_part envPng .download none (strOf "http://e/") (strOf "u.png 2x") {}
      = .ok (none, addLog {} [envPng.urljoin (strOf "http://e/") (strOf "u.png")])) := by
  constructor
  · exact (c10_download_none_behavior envPng (strOf "http://e/")
      (strOf "<img src=\"u.png\">") [] [] (strOf "u.png 2x")
      { g1 := strOf "<img src=", quote := '"', val := strOf "u.png", g4 := strOf "\">" }
      { g1 := [], url := [], g3 := [] } {}).1 [137, 80] (strOf "image/png")
      (by decide) (by decide) (by decide)
  · exact ((c10_download_none_behavior envPng (strOf "http://e/")
      (strOf "<img src=\"u.png\">") [] [] (strOf "u.png 2x")
      { g1 := strOf "<img src=", quote := '"', val := strOf "u.png", g4 := strOf "\">" }
      { g1 := [], url := [], g3 := [] } {}).2.2.2 [137, 80] (strOf "image/png")
      (strOf "u.png") [strOf "2x"] (by decide) (by decide) (by decide) (by decide)
      (by decide)).1

/-! ## Claim C1 -/

/-- In embed mode the image callback never raises. -/
theorem replace_image_embed_ok (env : Env) (folder : Option (List Char)) (base : List Char) :
    ∀ w g s, ∃ out, replace_image env .embed folder base w g s = .ok out := by
  intro w g s
  rcases henv : env.fetch (env.urljoin base g.val) with ⟨content, ct⟩
  unfold replace_image
  simp only [fetch_resource, henv]
  repeat' split
  all_goals exact ⟨_, rfl⟩

/-- In embed mode the srcset candidate processing never raises. -/
theorem process_srcset_part_embed_ok (env : Env) (folder : Option (List Char))
    (base : List Char) :
    ∀ p s, ∃ out, process_srcset_part env .embed folder base p s = .ok out := by
  intro p s
  unfold process_srcset_part
  dsimp only
  by_cases hne : (stripStr p).isEmpty = true
  · simp only [hne, if_true]
    exact ⟨_, rfl⟩
  · simp only [hne, if_false]
    cases hsp : splitWS (stripStr p) with
    | nil => exact ⟨(none, s), by simp [hsp]⟩
    | cons src restPieces =>
      rcases henv : env.fetch (env.urljoin base src) with ⟨content, ct⟩
      simp only [hsp, fetch_resource, henv]
      repeat' split
      all_goals exact ⟨_, rfl⟩

/-- In embed mode the srcset candidate fold never raises. -/
theorem process_srcset_parts_embed_ok (env : Env) (folder : Option (List Char))
    (base : List Char) :
    ∀ ps s, ∃ out, process_srcset_parts env .embed folder base ps s = .ok out := by
  intro ps
  induction ps with
  | nil => intro s; exact ⟨_, rfl⟩
  | cons p ps ih =>
    intro s
    obtain ⟨⟨r, s1⟩, h1⟩ := process_srcset_part_embed_ok env folder base p s
    obtain ⟨⟨rs, s2⟩, h2⟩ := ih s1
    unfold process_srcset_parts
    simp only [h1, h2]
    cases r <;> exact ⟨_, rfl⟩

/-- In embed mode the srcset callback never raises. -/
theorem replace_srcset_embed_ok (env : Env) (folder : Option (List Char)) (base : List Char) :
    ∀ w g s, ∃ out, replace_srcset env .embed folder base w g s = .ok out := by
  intro w g s
  obtain ⟨⟨parts, s1⟩, h1⟩ :=
    process_srcset_parts_embed_ok env folder base (splitOnChar ',' g) s
  unfold replace_srcset
  simp only [h1]
  split <;> exact ⟨_, rfl⟩

/-- In embed mode the inline-style callback never raises. -/
theorem replace_style_url_embed_ok (env : Env) (folder : Option (List Char))
    (base : List Char) :
    ∀ w g s, ∃ out, replace_style_url env .embed folder base w g s = .ok out := by
  intro w g s
  rcases henv : env.fetch (env.urljoin base g.url) with ⟨content, ct⟩
  unfold replace_style_url
  simp only [fetch_resource, henv]
  repeat' split
  all_goals exact ⟨_, rfl⟩

/-- In embed mode the `<source>` candidate processing never raises. -/
theorem process_source_part_embed_ok (env : Env) (folder : Option (List Char))
    (base : List Char) :
    ∀ p s, ∃ out, process_source_part env .embed folder base p s = .ok out := by
  intro p s
  unfold process_source_part
  dsimp only
  by_cases hne : (stripStr p).isEmpty = true
  · simp only [hne, if_true]
    exact ⟨_, rfl⟩
  · simp only [hne, if_false]
    cases hsp : splitWS (stripStr p) with
    | nil => exact ⟨(none, s), by simp [hsp]⟩
    | cons src restPieces =>
      rcases henv : env.fetch (env.urljoin base src) with ⟨content, ct⟩
      simp only [hsp, fetch_resource, henv]
      repeat' split
      all_goals exact ⟨_, rfl⟩

/-- In embed mode the `<source>` candidate fold never raises. -/
theorem process_source_parts_embed_ok (env : Env) (folder : Option (List Char))
    (base : List Char) :
    ∀ ps s, ∃ out, process_source_parts env .embed folder base ps s = .ok out := by
  intro ps
  induction ps with
  | nil => intro s; exact ⟨_, rfl⟩
  | cons p ps ih =>
    intro s
    obtain ⟨⟨r, s1⟩, h1⟩ := process_source_part_embed_ok env folder base p s
    obtain ⟨⟨rs, s2⟩, h2⟩ := ih s1
    unfold process_source_parts
    simp only [h1, h2]
    cases r <;> exact ⟨_, rfl⟩

/-- In embed mode the `<source>` callback never raises. -/
theorem replace_source_embed_ok (env : Env) (folder : Option (List Char)) (base : List Char) :
    ∀ w g s, ∃ out, replace_source env .embed folder base w g s = .ok out := by
  intro w g s
  obtain ⟨⟨parts, s1⟩, h1⟩ :=
    process_source_parts_embed_ok env folder base (splitOnChar ',' g.val) s
  unfold replace_source
  simp only [h1]
  split <;> exact ⟨_, rfl⟩

/-- An embed-mode conversion never aborts: every callback of every pass
is total there. -/
theorem create_embed_isOk (env : Env) (html base pn : List Char) (wm rs : Bool)
    (folder : Option (List Char)) :
    ∃ r, create_standalone_html env html base pn wm rs .embed folder = .ok r := by
  unfold create_standalone_html
  dsimp only
  rw [if_pos (by decide : (AssetsMode.embed ≠ AssetsMode.hotlink))]
  rcases hsp : stylesheetPass env .embed folder base
      (lazyNormalize (if rs then removeScriptsAndHandlers html else html))
      { stats := { total_size_before := html.length, source_url := base } } with ⟨h3, st1⟩
  rw [if_pos (by decide : (AssetsMode.embed ≠ AssetsMode.hotlink))]
  obtain ⟨⟨h4, st2⟩, him⟩ := reSubE_isOk
    (findMatchBy (tryTagAttrAt (strOf "<img") (strOf "src"))) _
    (replace_image_embed_ok env folder base) (h3.length + 1) h3 st1
  simp only [him]
  rw [if_pos (by decide : (AssetsMode.embed ≠ AssetsMode.hotlink))]
  obtain ⟨⟨h5, st3⟩, hsr⟩ := reSubE_isOk (findMatchBy trySrcsetAt) _
    (replace_srcset_embed_ok env folder base) (h4.length + 1) h4 st2
  simp only [hsr]
  rw [if_pos (by decide : (AssetsMode.embed ≠ AssetsMode.hotlink))]
  obtain ⟨⟨h6, st4⟩, hst⟩ := reSubE_isOk (findMatchBy tryStyleAt) _
    (replace_style_url_embed_ok env folder base) (h5.length + 1) h5 st3
  simp only [hst]
  rw [if_pos (by decide : (AssetsMode.embed ≠ AssetsMode.hotlink))]
  obtain ⟨⟨h7, st5⟩, hso⟩ := reSubE_isOk
    (findMatchBy (tryTagAttrAt (strOf "<source") (strOf "srcset"))) _
    (replace_source_embed_ok env folder base) (h6.length + 1) h6 st4
  simp only [hso]
  exact ⟨_, rfl⟩

/-- Environment whose asset-store writes raise (a full disk). -/
def envDiskFull : Env :=
  { envPng with
    saveFile := fun _ _ => .error (strOf "OSError: [Errno 28] No space left on device") }

/-- Claim C1, counterexample: the substitution callbacks of the markup
passes have no per-match exception handler.  In download mode with a
folder, when the asset store's write raises, the exception propagates
out of the image callback and aborts the whole conversion — the result
is an error, not a document with that one match left unchanged. -/
theorem c1_counterexample :
    create_standalone_html envDiskFull (strOf "<img src=\"/a.png\">") (strOf "http://e/")
      (strOf "P") false true .download (some (strOf "assets"))
      = .error (strOf "OSError: [Errno 28] No space left on device") := by
  rfl

/-- Claim C1 (amended): only the CSS `url()` callback carries a per-match
`try`/`except` (and the stylesheet pass a per-stylesheet one); the
image/srcset/style/source callbacks have none, so a callback exception
(an asset-store write error in download mode) aborts the whole rewrite.
In embed mode and hotlink mode no callback can raise, and the conversion
always completes. -/
theorem c1_embed_hotlink_never_abort (env : Env) (html base pn : List Char)
    (wm rs : Bool) (folder : Option (List Char)) :
    (∃ r, create_standalone_html env html base pn wm rs .embed folder = .ok r)
    ∧ (∃ r, create_standalone_html env html base pn wm rs .hotlink folder = .ok r) := by
  refine ⟨create_embed_isOk env html base pn wm rs folder, ?_⟩
  cases wm <;> cases rs <;> exact ⟨_, rfl⟩

/-! ## Claim C2 -/

/-- The document the spec says `hotlink` mode must produce: the input
transformed only by script/handler stripping (when enabled), lazy-load
normalization, and the three structural injections. -/
def hotlinkSpecHtml (env : Env) (pn base : List Char) (wm rs : Bool)
    (html : List Char) : List Char :=
  injectMetaComment env pn base
    ((fun h => if wm then injectWatermark env pn h else h)
      (injectScrollFix (lazyNormalize (if rs then removeScriptsAndHandlers html else html))))

/-- Claim C2: for every input document, running the conversion with
`assets_mode='hotlink'` produces exactly the document obtained from the
input by the script/handler-stripping pass (when enabled), the
lazy-attribute normalization pass, and the three structural injections;
no resource pass runs, no reference is altered beyond those passes, no
fetch is performed, no counter is incremented, no error is recorded and
no file is written. -/
theorem c2_hotlink_purity (env : Env) (html base pn : List Char) (wm rs : Bool)
    (folder : Option (List Char)) :
    create_standalone_html env html base pn wm rs .hotlink folder =
      .ok { html := hotlinkSpecHtml env pn base wm rs html,
            stats := { total_size_before := html.length,
                       total_size_after := (hotlinkSpecHtml env pn base wm rs html).length,
                       source_url := base },
            errors := [], fetchLog := [], files := [] } := by
  cases wm <;> cases rs <;> rfl

/-- Claim C3, counterexample: a srcset candidate whose fetch fails (the
environment returns a non-2xx outcome for every URL) leaves the failure
counter at zero and the error list empty, and the attribute text is not
left unchanged either — the single-quoted attribute is reassembled with
double quotes.  This contradicts the claimed per-reference accounting
for the srcset pass. -/
theorem c3_counterexample :
    resFailed (create_standalone_html envFail (strOf "<img srcset='http://e/a.png 1x'>")
        (strOf "http://e/") (strOf "P") false true .embed none) = 0
    ∧ resErrors (create_standalone_html envFail (strOf "<img srcset='http://e/a.png 1x'>")
        (strOf "http://e/") (strOf "P") false true .embed none) = []
    ∧ resLog (create_standalone_html envFail (strOf "<img srcset='http://e/a.png 1x'>")
        (strOf "http://e/") (strOf "P") false true .embed none) = [strOf "http://e/a.png"]
    ∧ containsSub (strOf "srcset=\"http://e/a.png 1x\"")
        (resHtml (create_standalone_html envFail (strOf "<img srcset='http://e/a.png 1x'>")
          (strOf "http://e/") (strOf "P") false true .embed none)) = true
    ∧ containsSub (strOf "srcset='http://e/a.png 1x'")
        (resHtml (create_standalone_html envFail (strOf "<img srcset='http://e/a.png 1x'>")
          (strOf "http://e/") (strOf "P") false true .embed none)) = false := by
  refine ⟨by decide, by decide, by decide, by decide, by decide⟩

/-- Environment for the C5 counterexample: fetching the stylesheet
`s.css` succeeds and its text contains link-shaped markup; everything
else fails. -/
def envCssWithLink : Env :=
  { envPng with fetch := fun u =>
      if u = strOf "http://ex.com/s.css"
      then (some ((strOf "<link href=\"a.css\">").map Char.toNat), strOf "text/css")
      else (none, strOf "404") }

/-- The first embed-mode run of the C5 counterexample. -/
def c5run1 : Except (List Char) ConvResult :=
  create_standalone_html envCssWithLink (strOf "<link rel=\"stylesheet\" href=\"s.css\">")
    (strOf "http://ex.com/") (strOf "P") false true .embed none

/-- Claim C5, counterexample: embed mode is not fetch-free on its own
output.  The first run embeds its single stylesheet with no failures,
yet re-running embed mode on the produced document performs a fetch:
the stylesheet body was inlined verbatim into a `<style>` block, and the
link-shaped text inside it is rediscovered by the stylesheet `<link>`
patterns of the second run, which fetches `a.css`. -/
theorem c5_counterexample :
    resOk c5run1 = true
    ∧ resFailed c5run1 = 0
    ∧ resErrors c5run1 = []
    ∧ resLog c5run1 = [strOf "http://ex.com/s.css"]
    ∧ resLog (create_standalone_html envFail (resHtml c5run1) (strOf "http://ex.com/")
        (strOf "P") false true .embed none) = [strOf "http://ex.com/a.css"] := by
  refine ⟨by decide, by decide, by decide, by decide, by decide⟩

/-- The download-mode run with no assets folder of the C10
counterexample. -/
def c10run : Except (List Char) ConvResult :=
  create_standalone_html envPng (strOf "<img srcset=\"data:x 1x, http://e/a.png 2x\">")
    (strOf "http://e/") (strOf "P") false true .download none

/-- Claim C10, counterexample: with `assets_mode='download'` and
`assets_folder=None`, a successfully fetched resource is not always
left unchanged.  In a srcset attribute mixing an inline candidate with
an external one, the external candidate is fetched (the log shows it)
and then silently dropped from the reassembled attribute — its URL no
longer occurs in the output — while no counter, error record or file
write happens. -/
theorem c10_counterexample :
    resOk c10run = true
    ∧ resFailed c10run = 0
    ∧ resErrors c10run = []
    ∧ resFiles c10run = []
    ∧ resLog c10run = [strOf "http://e/a.png"]
    ∧ containsSub (strOf "http://e/a.png") (resHtml c10run) = false
    ∧ containsSub (strOf "srcset=\"data:x 1x\"") (resHtml c10run) = true := by
  refine ⟨by decide, by decide, by decide, by decide, by decide, by decide, by decide⟩

end U2S
